import Mathlib

/-
  Verification of the weekend-planner backend ingestion pipeline and cache layer.

  Shallow embedding conventions:
  - JavaScript `null`/`undefined` string and number fields become `Option`.
  - JS numbers are modelled as `Rat` (exact rationals); machine hashing uses `Nat`
    with explicit masking at 2^32.
  - `Date` values are epoch milliseconds (`Int`); an invalid date (NaN time) is
    modelled by `Option Int` with `none` for the invalid case.
  - Stateful Prisma/Redis calls become explicit state passing over list-backed
    tables; per-item `try/catch` becomes `Except` folded into error counters.
-/

set_option maxRecDepth 200000

/-! ## JS helpers -/

/-- Truthiness of a JS string field (`null`/`undefined`/empty string are falsy). -/
def strTruthy : Option String → Bool
  | some s => !s.isEmpty
  | none => false

/-! ## Source types (src/modules/search/search.schemas.ts, merge.service.ts) -/

/-- Provider source enum; includes `PARTNER` which appears in the priority table. -/
inductive SourceType where
  | MANUAL | PARTNER | GOOGLE_PLACES | TICKETMASTER | PREDICTHQ | FOURSQUARE | GEOAPIFY
  deriving DecidableEq, Repr

/-- sourcePriorityOf from merge.service.ts. -/
def sourcePriorityOf : SourceType → Nat
  | .MANUAL => 100
  | .PARTNER => 90
  | .GOOGLE_PLACES => 80
  | .TICKETMASTER => 75
  | .PREDICTHQ => 70
  | .FOURSQUARE => 65
  | .GEOAPIFY => 60

/-! ## Normalized candidate shapes (declared in dedup.service.ts, used by merge/persist) -/

/-- Candidate coordinates; each component may be absent, mirroring the
`location?.lat != null` null checks in the source. -/
structure GeoLoc where
  lat : Option Rat
  lon : Option Rat
  deriving DecidableEq, Repr

/-- it.source identity key carried by every normalized candidate. -/
structure SourceRef where
  source : SourceType
  externalId : String
  url : Option String := none
  deriving DecidableEq, Repr

/-- Event candidate time block; `start`/`end` are parsed JS dates
(`none` inside means the string did not parse, i.e. Invalid Date). -/
structure TimeLike where
  start : Option (Option Int) := none
  «end» : Option (Option Int) := none
  timezone : Option String := none
  deriving DecidableEq, Repr

/-- `NormalizedPlaceLike` declared in src/modules/ingestion/dedup.service.ts
(staged in the sources inside
src/modules/ingestion/providers/events/predicthq.provider.ts after the
document separator). The optional provider-internal `id` field is omitted:
no code verified here reads it. -/
structure NormalizedPlaceLike where
  name : Option String := none
  address : Option String := none
  location : Option GeoLoc := none
  imageUrl : Option String := none
  url : Option String := none
  rating : Option Rat := none
  reviewCount : Option Rat := none
  cityId : Option String := none
  source : SourceRef
  sourceUpdatedAt : Option Int := none
  categories : List String := []
  providerCategoriesRaw : List String := []
  deriving DecidableEq, Repr

/-- `NormalizedEventLike` declared in src/modules/ingestion/dedup.service.ts
(staged inside src/modules/ingestion/providers/events/predicthq.provider.ts).
The optional provider-internal `id` and the `address` field are omitted: no
code verified here reads them. -/
structure NormalizedEventLike where
  title : Option String := none
  description : Option String := none
  imageUrl : Option String := none
  url : Option String := none
  location : Option GeoLoc := none
  time : Option TimeLike := none
  cityId : Option String := none
  source : SourceRef
  sourceUpdatedAt : Option Int := none
  categories : List String := []
  providerCategoriesRaw : List String := []
  priceFrom : Option Rat := none
  priceTo : Option Rat := none
  currency : Option String := none
  isOnline : Option Bool := none
  ageLimit : Option Int := none
  languages : Option (List String) := none
  ticketsUrl : Option String := none
  deriving DecidableEq, Repr

/-! ## Merge service (src/modules/ingestion/merge.service.ts) -/

/-- The minimal existing-place projection passed to buildPlaceUpdate. -/
structure ExistingPlaceFields where
  name : Option String := none
  address : Option String := none
  imageUrl : Option String := none
  url : Option String := none
  rating : Option Rat := none
  reviewCount : Option Int := none
  deriving DecidableEq, Repr

/-- Prisma.PlaceUpdateInput as assembled by buildPlaceUpdate (a field is `none`
when the corresponding key is not assigned on the update object). -/
structure PlaceUpdate where
  name : Option String := none
  address : Option String := none
  lat : Option Rat := none
  lng : Option Rat := none
  imageUrl : Option String := none
  url : Option String := none
  rating : Option Rat := none
  reviewCount : Option Int := none
  deriving DecidableEq, Repr

/-- buildPlaceUpdate from merge.service.ts. Note that the `sourceUpdatedAt`
parameter is accepted but never read by the source, and that the coordinate
branch guards with `update.lat ??=` on the freshly created update object, so
incoming coordinates are always assigned when both components are present. -/
def buildPlaceUpdate (existing : ExistingPlaceFields) (normalized : NormalizedPlaceLike)
    (_sourceType : SourceType) (_sourceUpdatedAt : Option Int) : Option PlaceUpdate :=
  let u : PlaceUpdate := {}
  let u := if !strTruthy existing.name && strTruthy normalized.name then
      { u with name := normalized.name } else u
  let u := if !strTruthy existing.address && strTruthy normalized.address then
      { u with address := normalized.address } else u
  let u := match normalized.location with
    | some loc =>
        if loc.lat.isSome && loc.lon.isSome then { u with lat := loc.lat, lng := loc.lon } else u
    | none => u
  let u := if !strTruthy existing.imageUrl && strTruthy normalized.imageUrl then
      { u with imageUrl := normalized.imageUrl } else u
  let u := if !strTruthy existing.url && strTruthy normalized.url then
      { u with url := normalized.url } else u
  let u := if existing.rating.isNone && normalized.rating.isSome then
      { u with rating := normalized.rating } else u
  let u := if (existing.reviewCount.isNone || existing.reviewCount == some 0) &&
      normalized.reviewCount.isSome then
      { u with reviewCount := normalized.reviewCount.map (fun q => max 0 ⌊q⌋) } else u
  if u = ({} : PlaceUpdate) then none else some u

/-- The minimal existing-event projection passed to buildEventUpdate. -/
structure ExistingEventFields where
  title : Option String := none
  description : Option String := none
  imageUrl : Option String := none
  deriving DecidableEq, Repr

/-- Prisma.EventUpdateInput as assembled by buildEventUpdate. -/
structure EventUpdate where
  title : Option String := none
  description : Option String := none
  imageUrl : Option String := none
  deriving DecidableEq, Repr

/-- buildEventUpdate from merge.service.ts; `sourceUpdatedAt` is likewise unread. -/
def buildEventUpdate (existing : ExistingEventFields) (normalized : NormalizedEventLike)
    (_sourceType : SourceType) (_sourceUpdatedAt : Option Int) : Option EventUpdate :=
  let u : EventUpdate := {}
  let u := if !strTruthy existing.title && strTruthy normalized.title then
      { u with title := normalized.title } else u
  let u := if !strTruthy existing.description && strTruthy normalized.description then
      { u with description := normalized.description } else u
  let u := if !strTruthy existing.imageUrl && strTruthy normalized.imageUrl then
      { u with imageUrl := normalized.imageUrl } else u
  if u = ({} : EventUpdate) then none else some u

/-! ## Redis model (semantics of the redis client as exercised by CacheService;
matches the repository InMemoryRedis test double: values and per-key expiry
timestamps, sets for tag indexes, `EX` ttl in seconds, `NX` conditional set) -/

/-- Association-list get. -/
def alistGet {α : Type} (l : List (String × α)) (k : String) : Option α :=
  (l.find? (fun e => e.1 == k)).map (·.2)

/-- Association-list set (update in place or append). -/
def alistSet {α : Type} (l : List (String × α)) (k : String) (v : α) : List (String × α) :=
  match l with
  | [] => [(k, v)]
  | e :: rest => if e.1 == k then (k, v) :: rest else e :: alistSet rest k v

/-- Association-list delete. -/
def alistDel {α : Type} (l : List (String × α)) (k : String) : List (String × α) :=
  l.filter (fun e => e.1 != k)

/-- Redis state: string values, tag sets, and absolute expiry times (epoch ms). -/
structure RedisState where
  store : List (String × String) := []
  sets : List (String × List String) := []
  expiry : List (String × Int) := []
  deriving DecidableEq, Repr

/-- Whether `key` is expired at time `now` (strictly past its expiry). -/
def redisExpired (now : Int) (st : RedisState) (key : String) : Bool :=
  match alistGet st.expiry key with
  | some t => now > t
  | none => false

/-- GET: value if present and not expired. -/
def redisGet (now : Int) (st : RedisState) (key : String) : Option String :=
  if redisExpired now st key then none else alistGet st.store key

/-- SET without TTL (clears any previous expiry). -/
def redisSet (st : RedisState) (key val : String) : RedisState :=
  { st with store := alistSet st.store key val, expiry := alistDel st.expiry key }

/-- SET key val EX ttlSeconds (ttl > 0 sets an absolute expiry). -/
def redisSetEx (now : Int) (st : RedisState) (key val : String) (ttlSeconds : Int) : RedisState :=
  let st := redisSet st key val
  if ttlSeconds > 0 then
    { st with expiry := alistSet st.expiry key (now + ttlSeconds * 1000) } else st

/-- SET key val EX ttl NX: returns none (null) without change when the key is
live, otherwise stores and returns "OK". -/
def redisSetNxEx (now : Int) (st : RedisState) (key val : String) (ttlSeconds : Int) :
    Option String × RedisState :=
  if (redisGet now st key).isSome then (none, st)
  else (some "OK", redisSetEx now st key val ttlSeconds)

/-- DEL of a list of keys; returns the number of store entries removed. -/
def redisDel (st : RedisState) (keys : List String) : Nat × RedisState :=
  keys.foldl (fun (acc : Nat × RedisState) k =>
    let st := acc.2
    let hit := (alistGet st.store k).isSome
    ((if hit then acc.1 + 1 else acc.1),
      { st with store := alistDel st.store k, expiry := alistDel st.expiry k }))
    (0, st)

/-- EXISTS (0 or 1), honouring expiry. -/
def redisExists (now : Int) (st : RedisState) (key : String) : Nat :=
  if (redisGet now st key).isSome then 1 else 0

/-- SADD. -/
def redisSadd (st : RedisState) (key member : String) : RedisState :=
  let cur := (alistGet st.sets key).getD []
  { st with sets := alistSet st.sets key (if member ∈ cur then cur else cur ++ [member]) }

/-- SMEMBERS. -/
def redisSmembers (st : RedisState) (key : String) : List String :=
  (alistGet st.sets key).getD []

/-- EXPIRE key seconds. -/
def redisExpire (now : Int) (st : RedisState) (key : String) (seconds : Int) : RedisState :=
  if (alistGet st.store key).isSome || (alistGet st.sets key).isSome then
    { st with expiry := alistSet st.expiry key (now + seconds * 1000) }
  else st

/-! ## Cache service (src/modules/cache/cache.service.ts) -/

/-- Cache construction flags. `enabled = !!redis && CACHE_ENABLED`. -/
structure CacheConfig where
  hasRedis : Bool
  envEnabled : Bool
  ns : String := "v1"
  lockTtl : Int := 10
  deriving DecidableEq, Repr

/-- The `enabled` field computed by the CacheService constructor. -/
def CacheConfig.enabled (c : CacheConfig) : Bool := c.hasRedis && c.envEnabled

/-- setJSONWithSWR: data key with ttl = ttl + swr, freshness marker with ttl only,
plus tag indexing. The serialized payload is passed as a string (JSON.stringify
of the cached value). -/
def setJSONWithSWR (c : CacheConfig) (now : Int) (key payload : String)
    (ttlSeconds swrSeconds : Int) (tags : List String) (st : RedisState) : RedisState :=
  if !c.enabled then st else
  let totalTtl := max 0 (ttlSeconds + max 0 swrSeconds)
  let st := if totalTtl > 0 then redisSetEx now st key payload totalTtl
            else redisSet st key payload
  let freshKey := key ++ ":fresh"
  let st := if ttlSeconds > 0 then redisSetEx now st freshKey "1" ttlSeconds
            else redisSet st freshKey "1"
  (tags.filter (fun t => !t.isEmpty)).foldl (fun st t =>
    let setKey := c.ns ++ ":index:" ++ t
    let st := redisSadd st setKey key
    if totalTtl > 0 then redisExpire now st setKey (max totalTtl 600) else st) st

/-- getJSONWithSWR: returns the parsed payload plus staleness (marker missing).
JSON.parse of a payload produced by JSON.stringify succeeds, so the catch
branch is unreachable for stored entries. -/
def getJSONWithSWR (c : CacheConfig) (now : Int) (key : String) (st : RedisState) :
    Option (String × Bool) :=
  if !c.enabled then none else
  match redisGet now st key with
  | none => none
  | some raw => some (raw, redisExists now st (key ++ ":fresh") == 0)

/-- withLock: when disabled, run the function directly; otherwise `SET .. EX .. NX`,
return null when the lock is held, else run the function and delete the lock in a
`finally` (errors from the function propagate, after the delete). -/
def withLock {α : Type} (c : CacheConfig) (now : Int) (lockKey : String)
    (fn : RedisState → Except String α × RedisState) (st : RedisState) :
    Except String (Option α) × RedisState :=
  if !c.enabled then
    let (r, st') := fn st
    (r.map some, st')
  else
    match redisSetNxEx now st lockKey "1" c.lockTtl with
    | (none, st₁) => (Except.ok none, st₁)
    | (some _, st₁) =>
        let (r, st₂) := fn st₁
        let st₃ := (redisDel st₂ [lockKey]).2
        (r.map some, st₃)

/-! ## Cryptographic hashes (node:crypto sha256 / sha1 as used by scoring,
checksums and cache keys) -/

/-- Bytes of an ASCII string (UTF-8 agrees with code points below 128;
every seed/key hashed by this code base is ASCII). -/
def strBytes (s : String) : List Nat := s.data.map Char.toNat

/-- Truncate to 32 bits. -/
def w32 (n : Nat) : Nat := n % 4294967296

/-- Rotate a 32-bit value right. -/
def rotr32 (n x : Nat) : Nat := w32 ((x >>> n) ||| (x <<< (32 - n)))

/-- Rotate a 32-bit value left. -/
def rotl32 (n x : Nat) : Nat := w32 ((x <<< n) ||| (x >>> (32 - n)))

/-- Bitwise complement on 32 bits (operand below 2^32). -/
def not32 (x : Nat) : Nat := 4294967295 - x

/-- Big-endian byte list (length k) of a number. -/
def beBytes : Nat → Nat → List Nat
  | 0, _ => []
  | k+1, n => beBytes k (n / 256) ++ [n % 256]

/-- Big-endian 32-bit words from bytes. -/
def bytesToWords : List Nat → List Nat
  | b0 :: b1 :: b2 :: b3 :: rest => (((b0 * 256 + b1) * 256 + b2) * 256 + b3) :: bytesToWords rest
  | _ => []

/-- Merkle-Damgard padding shared by sha256 and sha1: append 0x80, zero-pad to
56 mod 64, then the bit length as 8 big-endian bytes. -/
def mdPad (msg : List Nat) : List Nat :=
  let len := msg.length
  msg ++ [128] ++ List.replicate ((119 - len % 64) % 64) 0 ++ beBytes 8 (len * 8)

def sha256K : List Nat :=
  [1116352408, 1899447441, 3049323471, 3921009573, 961987163, 1508970993,
   2453635748, 2870763221, 3624381080, 310598401, 607225278, 1426881987,
   1925078388, 2162078206, 2614888103, 3248222580, 3835390401, 4022224774,
   264347078, 604807628, 770255983, 1249150122, 1555081692, 1996064986,
   2554220882, 2821834349, 2952996808, 3210313671, 3336571891, 3584528711,
   113926993, 338241895, 666307205, 773529912, 1294757372, 1396182291,
   1695183700, 1986661051, 2177026350, 2456956037, 2730485921, 2820302411,
   3259730800, 3345764771, 3516065817, 3600352804, 4094571909, 275423344,
   430227734, 506948616, 659060556, 883997877, 958139571, 1322822218,
   1537002063, 1747873779, 1955562222, 2024104815, 2227730452, 2361852424,
   2428436474, 2756734187, 3204031479, 3329325298]

def sha256Init : List Nat :=
  [1779033703, 3144134277, 1013904242, 2773480762, 1359893119, 2600822924,
   528734635, 1541459225]

/-- Extend the 16 message words to 64 (appends `fuel` derived words). -/
def sha256Schedule : Nat → List Nat → List Nat
  | 0, w => w
  | fuel+1, w =>
      let n := w.length
      let s0 := (rotr32 7 (w.getD (n - 15) 0)) ^^^ (rotr32 18 (w.getD (n - 15) 0)) ^^^
        ((w.getD (n - 15) 0) >>> 3)
      let s1 := (rotr32 17 (w.getD (n - 2) 0)) ^^^ (rotr32 19 (w.getD (n - 2) 0)) ^^^
        ((w.getD (n - 2) 0) >>> 10)
      sha256Schedule fuel (w ++ [w32 (w.getD (n - 16) 0 + s0 + w.getD (n - 7) 0 + s1)])

/-- One compression round chain over paired (k, w) values. -/
def sha256Rounds : List (Nat × Nat) → List Nat → List Nat
  | [], st => st
  | (k, w) :: rest, [a, b, c, d, e, f, g, h] =>
      let s1 := (rotr32 6 e) ^^^ (rotr32 11 e) ^^^ (rotr32 25 e)
      let ch := (e &&& f) ^^^ ((not32 e) &&& g)
      let t1 := w32 (h + s1 + ch + k + w)
      let s0 := (rotr32 2 a) ^^^ (rotr32 13 a) ^^^ (rotr32 22 a)
      let mj := (a &&& b) ^^^ (a &&& c) ^^^ (b &&& c)
      let t2 := w32 (s0 + mj)
      sha256Rounds rest [w32 (t1 + t2), a, b, c, w32 (d + t1), e, f, g]
  | _ :: _, st => st

/-- Compress one 64-byte block into the running state. -/
def sha256Compress (st : List Nat) (block : List Nat) : List Nat :=
  let ws := sha256Schedule 48 (bytesToWords block)
  let out := sha256Rounds (sha256K.zip ws) st
  List.zipWith (fun x y => w32 (x + y)) st out

/-- Fold `n` 64-byte blocks of the padded message. -/
def sha256BlocksN : Nat → List Nat → List Nat → List Nat
  | 0, st, _ => st
  | n+1, st, msg => sha256BlocksN n (sha256Compress st (msg.take 64)) (msg.drop 64)

/-- SHA-256 state words of a byte message. -/
def sha256Words (msg : List Nat) : List Nat :=
  let padded := mdPad msg
  sha256BlocksN (padded.length / 64) sha256Init padded

/-- SHA-256 digest bytes. -/
def sha256Bytes (msg : List Nat) : List Nat :=
  (sha256Words msg).foldr (fun h acc => beBytes 4 h ++ acc) []

def hexDigitChar (n : Nat) : Char :=
  if n < 10 then Char.ofNat (48 + n) else Char.ofNat (87 + n)

/-- Lower-case hex of one byte. -/
def byteHex (b : Nat) : String :=
  String.mk [hexDigitChar (b / 16), hexDigitChar (b % 16)]

/-- Hex digest string. -/
def bytesHex (bs : List Nat) : String := (bs.map byteHex).foldl (· ++ ·) ""

def sha1Init : List Nat :=
  [1732584193, 4023233417, 2562383102, 271733878, 3285377520]

/-- Extend the 16 message words to 80 for sha1. -/
def sha1Schedule : Nat → List Nat → List Nat
  | 0, w => w
  | fuel+1, w =>
      let n := w.length
      let x := (w.getD (n - 3) 0) ^^^ (w.getD (n - 8) 0) ^^^ (w.getD (n - 14) 0) ^^^
        (w.getD (n - 16) 0)
      sha1Schedule fuel (w ++ [rotl32 1 x])

/-- sha1 round function and constant for round index i. -/
def sha1FK (i b c d : Nat) : Nat × Nat :=
  if i < 20 then ((b &&& c) ||| ((not32 b) &&& d), 1518500249)
  else if i < 40 then (b ^^^ c ^^^ d, 1859775393)
  else if i < 60 then ((b &&& c) ||| (b &&& d) ||| (c &&& d), 2400959708)
  else (b ^^^ c ^^^ d, 3395469782)

/-- sha1 compression rounds over indexed schedule words. -/
def sha1Rounds : List (Nat × Nat) → List Nat → List Nat
  | [], st => st
  | (i, w) :: rest, [a, b, c, d, e] =>
      let fk := sha1FK i b c d
      let temp := w32 (rotl32 5 a + fk.1 + e + fk.2 + w)
      sha1Rounds rest [temp, a, rotl32 30 b, c, d]
  | _ :: _, st => st

/-- Compress one 64-byte block for sha1. -/
def sha1Compress (st : List Nat) (block : List Nat) : List Nat :=
  let ws := sha1Schedule 64 (bytesToWords block)
  let idx := (List.range 80).zip ws
  let out := sha1Rounds idx st
  List.zipWith (fun x y => w32 (x + y)) st out

def sha1BlocksN : Nat → List Nat → List Nat → List Nat
  | 0, st, _ => st
  | n+1, st, msg => sha1BlocksN n (sha1Compress st (msg.take 64)) (msg.drop 64)

/-- SHA-1 digest bytes of a byte message. -/
def sha1Bytes (msg : List Nat) : List Nat :=
  let padded := mdPad msg
  ((sha1BlocksN (padded.length / 64) sha1Init padded).foldr
    (fun h acc => beBytes 4 h ++ acc) [])

/-- The sha1 helper of cache.service.ts: lower-case hex digest of a string. -/
def sha1 (s : String) : String := bytesHex (sha1Bytes (strBytes s))

/-! ## Scoring service (src/modules/ingestion/scoring.service.ts) -/

/-- Score triple returned by the scoring service. -/
structure ScoreTriple where
  popularityScore : Rat
  qualityScore : Rat
  freshnessScore : Rat
  deriving DecidableEq, Repr

/-- hashToFloat: first 4 digest bytes as a big-endian unsigned integer. -/
def hashToFloatNum (seed : String) : Nat :=
  match sha256Bytes (strBytes seed) with
  | b0 :: b1 :: b2 :: b3 :: _ => ((b0 * 256 + b1) * 256 + b2) * 256 + b3
  | _ => 0

/-- hashToFloat: `readUInt32BE(0) / 0xffffffff` (the comment in the source says
"in [0,1)", but the divisor is the maximum attainable numerator). Stated with
`mkRat`, which equals the field division `(n : Rat) / 4294967295`
(Rat.mkRat_eq_divInt / Rat.divInt_eq_div) but evaluates by kernel reduction. -/
def hashToFloat (seed : String) : Rat := mkRat (hashToFloatNum seed) 4294967295

/-- scoreByCanonicalId with the constructor-default scope salt "v1". -/
def scoreByCanonicalId (scopeSalt : String) (id : String) : ScoreTriple :=
  { popularityScore := hashToFloat (scopeSalt ++ ":pop:" ++ id)
    qualityScore := hashToFloat (scopeSalt ++ ":qual:" ++ id)
    freshnessScore := hashToFloat (scopeSalt ++ ":fresh:" ++ id) }

/-! ## Store model (the Prisma tables the ingestion pipeline touches) -/

/-- Canonical Place row (fields selected/updated by the pipeline). -/
structure PlaceRow where
  id : String
  name : Option String := none
  address : Option String := none
  url : Option String := none
  imageUrl : Option String := none
  lat : Option Rat := none
  lng : Option Rat := none
  rating : Option Rat := none
  reviewCount : Option Int := none
  mainCategoryId : Option String := none
  popularityScore : Option Rat := none
  qualityScore : Option Rat := none
  freshnessScore : Option Rat := none
  providerCategories : Option String := none
  provider : Option SourceType := none
  cityId : Option String := none
  isActive : Bool := true
  moderation : String := "APPROVED"
  deriving DecidableEq, Repr

/-- PlaceSource snapshot row, unique per (source, externalId). -/
structure PlaceSourceRow where
  placeId : String
  source : SourceType
  externalId : String
  url : Option String := none
  payload : NormalizedPlaceLike
  checksum : String
  fetchedAt : Int
  sourceUpdatedAt : Option Int := none
  deriving DecidableEq, Repr

/-- Category row (the DB field is `key`). -/
structure CategoryRow where
  id : String
  key : String
  deriving DecidableEq, Repr

/-- PlaceToCategory join row. -/
structure PlaceToCategoryRow where
  placeId : String
  categoryId : String
  isPrimary : Bool
  deriving DecidableEq, Repr

/-- Canonical Event row. -/
structure EventRow where
  id : String
  title : Option String := none
  description : Option String := none
  imageUrl : Option String := none
  mainCategoryId : Option String := none
  popularityScore : Option Rat := none
  qualityScore : Option Rat := none
  freshnessScore : Option Rat := none
  providerCategories : Option String := none
  provider : Option SourceType := none
  cityId : Option String := none
  priceFrom : Option Rat := none
  priceTo : Option Rat := none
  currency : Option String := none
  isOnline : Option Bool := none
  ageLimit : Option Int := none
  languages : List String := []
  ticketsUrl : Option String := none
  deriving DecidableEq, Repr

/-- EventSource snapshot row, unique per (source, externalId). -/
structure EventSourceRow where
  eventId : String
  source : SourceType
  externalId : String
  url : Option String := none
  payload : NormalizedEventLike
  checksum : String
  fetchedAt : Int
  sourceUpdatedAt : Option Int := none
  deriving DecidableEq, Repr

/-- EventToCategory join row. -/
structure EventToCategoryRow where
  eventId : String
  categoryId : String
  isPrimary : Bool
  deriving DecidableEq, Repr

/-- EventOccurrence row, matched by exact (eventId, startTime). -/
structure EventOccurrenceRow where
  id : String
  eventId : String
  startTime : Int
  endTime : Option Int := none
  timezone : Option String := none
  url : Option String := none
  lat : Option Rat := none
  lng : Option Rat := none
  placeId : Option String := none
  deriving DecidableEq, Repr

/-- The abstract persistence store (list-backed tables, insertion-ordered as
Prisma returns unordered result sets; `nextId` feeds generated ids). -/
structure Store where
  places : List PlaceRow := []
  placeSources : List PlaceSourceRow := []
  placeCategories : List CategoryRow := []
  placeToCategories : List PlaceToCategoryRow := []
  events : List EventRow := []
  eventSources : List EventSourceRow := []
  eventCategories : List CategoryRow := []
  eventToCategories : List EventToCategoryRow := []
  eventOccurrences : List EventOccurrenceRow := []
  nextId : Nat := 0
  deriving DecidableEq, Repr

/-- IngestStats from persist.service.ts. -/
structure IngestStats where
  total : Nat := 0
  created : Nat := 0
  updated : Nat := 0
  unchanged : Nat := 0
  errors : Nat := 0
  warnings : List String := []
  deriving DecidableEq, Repr

/-- Componentwise accumulation of statistics deltas. -/
def addStats (a b : IngestStats) : IngestStats :=
  { total := a.total + b.total, created := a.created + b.created,
    updated := a.updated + b.updated, unchanged := a.unchanged + b.unchanged,
    errors := a.errors + b.errors, warnings := a.warnings ++ b.warnings }

/-- Environment/oracle context for the persist pipeline: the clock, the parsed
event quality boost (0 when the env variable parses to NaN), the draw of the
random duration fallback, and rational-valued oracles standing in for the
floating-point `Math.cos`-based bounding box and haversine distance. Theorems
quantify over these, so they hold for the actual float functions. -/
structure PersistCtx where
  now : Int
  qualityBoost : Rat
  randEventMinutes : Nat
  dedupRadiusMeters : Rat
  cosDeg : Rat → Rat
  haversineMeters : Rat → Rat → Rat → Rat → Rat

/-! ## Taxonomy duration data (src/modules/catalog/taxonomy) -/

/-- Taxonomy category entry (the EVENT portion of TAXONOMY_CATEGORIES; the
PLACE and TAG portions never satisfy the `type === EVENT` test of the event
duration lookup and cannot affect it). -/
structure TaxonomyCategory where
  slug : String
  type : String
  name : String
  expected_duration : Option Nat := none
  deriving DecidableEq, Repr

/-- EVENT_CATEGORIES (richest variant, with expected durations). -/
def EVENT_CATEGORIES : List TaxonomyCategory :=
  [⟨"event.concert_show", "EVENT", "Concerts & Shows", some 120⟩,
   ⟨"event.theatre_performing_arts", "EVENT", "Theatre & Performing Arts", some 150⟩,
   ⟨"event.cinema_screening", "EVENT", "Cinema & Screenings", some 120⟩,
   ⟨"event.museum_exhibition", "EVENT", "Museum Exhibitions & Openings", some 90⟩,
   ⟨"event.festival_city_event", "EVENT", "Festivals & City Events", some 240⟩,
   ⟨"event.sport_match_fan", "EVENT", "Sports Matches & Fan Events", some 150⟩,
   ⟨"event.sport_race_endurance", "EVENT", "Races & Endurance Events", some 240⟩,
   ⟨"event.activity_class", "EVENT", "Classes & Activities", some 90⟩,
   ⟨"event.tour_excursion", "EVENT", "Tours & Excursions", some 120⟩,
   ⟨"event.workshop_course", "EVENT", "Workshops & Short Courses", some 180⟩,
   ⟨"event.conference_meetup", "EVENT", "Conferences & Meetups", some 240⟩,
   ⟨"event.community_club_series", "EVENT", "Community & Club Events", some 120⟩,
   ⟨"event.kids_family", "EVENT", "Kids & Family Events", some 90⟩,
   ⟨"event.nightlife_party", "EVENT", "Nightlife & Parties", some 240⟩,
   ⟨"event.online_event", "EVENT", "Online Events", some 90⟩,
   ⟨"event.other", "EVENT", "Other Events", some 120⟩]

/-- resolveExpectedDurationForEvent from duration.ts; the non-deterministic
randStepMinutes(90,180,10) fallback is supplied as the `rand` argument. -/
def resolveExpectedDurationForEvent (rand : Nat) (categorySlug : Option String) : Nat :=
  if !strTruthy categorySlug || categorySlug == some "event.other" then rand
  else
    match EVENT_CATEGORIES.find? (fun c =>
      some c.slug == categorySlug && c.type == "EVENT") with
    | none => rand
    | some c => c.expected_duration.getD rand

/-! ## Candidate checksums (computeChecksum = sha256 hex of the serialized
candidate; JSON.stringify is modelled by a fixed-order deterministic rendering
of the candidate record — the runtime key order of provider objects is not
derivable from the sources, and no pipeline decision compares checksum bytes) -/

def serOptStr : Option String → String
  | some s => "s(" ++ s ++ ")"
  | none => "_"

def serRat (q : Rat) : String := toString q.num ++ "r" ++ toString q.den

def serOptRat : Option Rat → String
  | some q => serRat q
  | none => "_"

def serOptInt : Option Int → String
  | some i => toString i
  | none => "_"

def serList (l : List String) : String := "[" ++ String.intercalate "|" l ++ "]"

/-- Name of a source type (JSON serialization of the enum string). -/
def sourceTypeName : SourceType → String
  | .MANUAL => "MANUAL"
  | .PARTNER => "PARTNER"
  | .GOOGLE_PLACES => "GOOGLE_PLACES"
  | .TICKETMASTER => "TICKETMASTER"
  | .PREDICTHQ => "PREDICTHQ"
  | .FOURSQUARE => "FOURSQUARE"
  | .GEOAPIFY => "GEOAPIFY"

def serSource (s : SourceRef) : String :=
  sourceTypeName s.source ++ "/" ++ s.externalId ++ "/" ++ serOptStr s.url

def serLoc : Option GeoLoc → String
  | some l => serOptRat l.lat ++ "@" ++ serOptRat l.lon
  | none => "_"

def serTime : Option TimeLike → String
  | some t => serOptInt (t.start.getD none) ++ ";" ++ serOptInt (t.«end».getD none) ++ ";" ++
      serOptStr t.timezone
  | none => "_"

/-- Serialization of a place candidate feeding computeChecksum. -/
def serPlaceCand (it : NormalizedPlaceLike) : String :=
  String.intercalate "," [serOptStr it.name, serOptStr it.address, serLoc it.location,
    serOptStr it.imageUrl, serOptStr it.url, serOptRat it.rating, serOptRat it.reviewCount,
    serOptStr it.cityId, serSource it.source, serOptInt it.sourceUpdatedAt,
    serList it.categories, serList it.providerCategoriesRaw]

/-- Serialization of an event candidate feeding computeChecksum. -/
def serEventCand (it : NormalizedEventLike) : String :=
  String.intercalate "," [serOptStr it.title, serOptStr it.description, serOptStr it.imageUrl,
    serOptStr it.url, serLoc it.location, serTime it.time, serOptStr it.cityId,
    serSource it.source, serOptInt it.sourceUpdatedAt, serList it.categories,
    serList it.providerCategoriesRaw, serOptRat it.priceFrom, serOptRat it.priceTo,
    serOptStr it.currency,
    (match it.isOnline with | some true => "T" | some false => "F" | none => "_"),
    serOptInt it.ageLimit,
    (match it.languages with | some l => serList l | none => "_"), serOptStr it.ticketsUrl]

/-- computeChecksum for a place candidate (sha256 hex). -/
def computeChecksumPlace (it : NormalizedPlaceLike) : String :=
  bytesHex (sha256Bytes (strBytes (serPlaceCand it)))

/-- computeChecksum for an event candidate (sha256 hex). -/
def computeChecksumEvent (it : NormalizedEventLike) : String :=
  bytesHex (sha256Bytes (strBytes (serEventCand it)))

/-! ## Dedup service (src/modules/ingestion/dedup.service.ts, staged inside
src/modules/ingestion/providers/events/predicthq.provider.ts).
`geoRadiusMeters` is the constructor parameter (default 100), carried in
`PersistCtx.dedupRadiusMeters`. -/

/-- Lowercasing of one character (`toLowerCase` restricted to the ASCII range;
the provider names and titles the pipeline compares are modelled over it). -/
def charToLowerJS (c : Char) : Char :=
  if 65 ≤ c.toNat && c.toNat ≤ 90 then Char.ofNat (c.toNat + 32) else c

/-- `s.toLowerCase()` (ASCII range). -/
def jsToLower (s : String) : String := String.mk (s.data.map charToLowerJS)

/-- `s.trim()`: strip leading and trailing whitespace. -/
def jsTrim (s : String) : String :=
  String.mk (((s.data.dropWhile Char.isWhitespace).reverse.dropWhile Char.isWhitespace).reverse)

/-- One pass of `replace(/\s+/g, " ")`: each maximal whitespace run becomes a
single space. The boolean records whether the previous character was part of a
whitespace run. -/
def collapseWsAux : Bool → List Char → List Char
  | _, [] => []
  | prevWs, c :: rest =>
      if c.isWhitespace then
        if prevWs then collapseWsAux true rest
        else ' ' :: collapseWsAux true rest
      else c :: collapseWsAux false rest

/-- normalizeStr from dedup.service.ts:
`s.trim().toLowerCase().replace(/\s+/g, " ")`. -/
def normalizeStr (s : String) : String :=
  String.mk (collapseWsAux false (jsToLower (jsTrim s)).data)

/-- findNearestPlaceByGeoAndName: bounding-box prefilter (active, APPROVED,
lat/lng ranges from the cos-oracle box, plus `where.cityId = cityId` when the
cityId is truthy), first 30 rows (`take: 30`), then the scan: haversine cut at
the radius; when the incoming normalized name is nonempty and the candidate
normalized name is also nonempty but different, the distance is penalized by
20% before the minimum comparison; otherwise the plain distance competes. The
`| _, _ => best` arm models the `isNaN` skip. Returns the best (id, distance).
The `|| 1` fallback of the longitude denominator is modelled by the zero
test. -/
def findNearestPlaceByGeoAndName (ctx : PersistCtx) (st : Store) (lat lon : Rat)
    (name : Option String) (cityId : Option String) : Option (String × Rat) :=
  let km := ctx.dedupRadiusMeters / 1000
  let degLat := km / (111.32 : Rat)
  let denom := (111.32 : Rat) * ctx.cosDeg lat
  let degLon := km / (if denom = 0 then 1 else denom)
  let candidates := (st.places.filter (fun p =>
    p.isActive && p.moderation == "APPROVED" &&
    (match p.lat, p.lng with
     | some plat, some plon =>
         decide (lat - degLat ≤ plat) && decide (plat ≤ lat + degLat) &&
         decide (lon - degLon ≤ plon) && decide (plon ≤ lon + degLon)
     | _, _ => false) &&
    (!strTruthy cityId || p.cityId == cityId))).take 30
  if candidates.isEmpty then none
  else
    let normName := if strTruthy name then normalizeStr (name.getD "") else ""
    candidates.foldl (fun best p =>
      match p.lat, p.lng with
      | some plat, some plon =>
          let d := ctx.haversineMeters lat lon plat plon
          if decide (ctx.dedupRadiusMeters < d) then best
          else if !normName.isEmpty &&
              (let cname := normalizeStr (p.name.getD "")
               !cname.isEmpty && cname != normName) then
            let penalized := d * (1.2 : Rat)
            match best with
            | none => some (p.id, penalized)
            | some b => if decide (penalized < b.2) then some (p.id, penalized) else best
          else
            match best with
            | none => some (p.id, d)
            | some b => if decide (d < b.2) then some (p.id, d) else best
      | _, _ => best) none

/-- IngestionDedupService.matchOrCreatePlace: source-identity fast path, then
the geo+name heuristic when both coordinates are non-null, then creation:
missing coordinates or a falsy cityId throw (the exact thrown messages); the
created row carries `name || ""`, the candidate address/url/imageUrl/rating,
`reviewCount` defaulted to 0 (else `max(0, floor ...)`), the cityId and the
provider tag. -/
def matchOrCreatePlace (ctx : PersistCtx) (st : Store) (it : NormalizedPlaceLike) :
    Except String (String × Store) :=
  match st.placeSources.find? (fun r =>
      r.source == it.source.source && r.externalId == it.source.externalId) with
  | some r => .ok (r.placeId, st)
  | none =>
    let geoHit : Option (String × Rat) :=
      match it.location with
      | some loc =>
        match loc.lat, loc.lon with
        | some lat, some lon => findNearestPlaceByGeoAndName ctx st lat lon it.name it.cityId
        | _, _ => none
      | none => none
    match geoHit with
    | some c => .ok (c.1, st)
    | none =>
        match it.location with
        | some loc =>
          match loc.lat, loc.lon with
          | some lat, some lon =>
              if !strTruthy it.cityId then
                .error ("Cannot create Place without cityId for source=" ++
                  sourceTypeName it.source.source ++ " externalId=" ++ it.source.externalId)
              else
                let pid := "place-" ++ toString st.nextId
                let row : PlaceRow :=
                  { id := pid, name := some (it.name.getD ""),
                    address := it.address, url := it.url, imageUrl := it.imageUrl,
                    lat := some lat, lng := some lon, rating := it.rating,
                    reviewCount := some (match it.reviewCount with
                      | some rc => max 0 ⌊rc⌋
                      | none => 0),
                    provider := some it.source.source, cityId := it.cityId }
                .ok (pid, { st with places := st.places ++ [row], nextId := st.nextId + 1 })
          | _, _ =>
              .error ("Cannot create Place without coordinates for source=" ++
                sourceTypeName it.source.source ++ " externalId=" ++ it.source.externalId)
        | none =>
            .error ("Cannot create Place without coordinates for source=" ++
              sourceTypeName it.source.source ++ " externalId=" ++ it.source.externalId)

/-- IngestionDedupService.matchOrCreateEvent: source-identity fast path; when
the normalized title is nonempty (so whitespace-only titles skip the lookup)
and the cityId is truthy, a same-city event whose stored title equals the raw
incoming `title ?? ""` case-insensitively (Prisma `mode: insensitive` on the
untrimmed title) is reused; then creation guarded by the cityId precondition
(the exact thrown message); the created row carries `title || ""`,
description/imageUrl, the cityId and the provider tag. -/
def matchOrCreateEvent (st : Store) (it : NormalizedEventLike) :
    Except String (String × Store) :=
  match st.eventSources.find? (fun r =>
      r.source == it.source.source && r.externalId == it.source.externalId) with
  | some r => .ok (r.eventId, st)
  | none =>
    let normTitle := normalizeStr (it.title.getD "")
    let titleHit : Option String :=
      if !normTitle.isEmpty && strTruthy it.cityId then
        (st.events.find? (fun e =>
          e.cityId == it.cityId &&
          e.title.map jsToLower == some (jsToLower (it.title.getD "")))).map (·.id)
      else none
    match titleHit with
    | some eid => .ok (eid, st)
    | none =>
        if !strTruthy it.cityId then
          .error ("Cannot create Event without cityId for source=" ++
            sourceTypeName it.source.source ++ " externalId=" ++ it.source.externalId)
        else
          let eid := "event-" ++ toString st.nextId
          let row : EventRow :=
            { id := eid, title := some (it.title.getD ""),
              description := it.description, imageUrl := it.imageUrl,
              provider := some it.source.source, cityId := it.cityId }
          .ok (eid, { st with events := st.events ++ [row], nextId := st.nextId + 1 })

/-! ## Persist service — places (src/modules/ingestion/persist.service.ts) -/

/-- First-occurrence deduplication (Array.from(new Set(...))). -/
def dedupFirst (l : List String) : List String :=
  l.foldl (fun acc s => if s ∈ acc then acc else acc ++ [s]) []

/-- Split a comma-separated audit field, trim, drop empties. -/
def splitProvCats (s : String) : List String :=
  ((s.splitOn ",").map String.trim).filter (fun x => !x.isEmpty)

/-- The combined Prisma update object assembled by ingestPlaces (spread of the
merge update, the score updates, the first-writer provider tag and the
providerCategories union). -/
structure PlaceCombinedUpdate where
  name : Option String := none
  address : Option String := none
  lat : Option Rat := none
  lng : Option Rat := none
  imageUrl : Option String := none
  url : Option String := none
  rating : Option Rat := none
  reviewCount : Option Int := none
  popularityScore : Option Rat := none
  qualityScore : Option Rat := none
  freshnessScore : Option Rat := none
  provider : Option SourceType := none
  providerCategories : Option String := none
  deriving DecidableEq, Repr

/-- Apply an update object to a row (assigned keys overwrite). -/
def applyPlaceUpdate (row : PlaceRow) (u : PlaceCombinedUpdate) : PlaceRow :=
  { row with
    name := match u.name with | some v => some v | none => row.name
    address := match u.address with | some v => some v | none => row.address
    lat := match u.lat with | some v => some v | none => row.lat
    lng := match u.lng with | some v => some v | none => row.lng
    imageUrl := match u.imageUrl with | some v => some v | none => row.imageUrl
    url := match u.url with | some v => some v | none => row.url
    rating := match u.rating with | some v => some v | none => row.rating
    reviewCount := match u.reviewCount with | some v => some v | none => row.reviewCount
    popularityScore := match u.popularityScore with | some v => some v | none => row.popularityScore
    qualityScore := match u.qualityScore with | some v => some v | none => row.qualityScore
    freshnessScore := match u.freshnessScore with | some v => some v | none => row.freshnessScore
    provider := match u.provider with | some v => some v | none => row.provider
    providerCategories := match u.providerCategories with
      | some v => some v | none => row.providerCategories }

/-- prisma.place.update keyed by id. -/
def updatePlaceRow (st : Store) (id : String) (u : PlaceCombinedUpdate) : Store :=
  { st with places := st.places.map (fun p => if p.id == id then applyPlaceUpdate p u else p) }

/-- Generic upsert on a list-backed table with a unique predicate key. -/
def upsertBy {α : Type} (l : List α) (pred : α → Bool) (row : α) : List α :=
  if l.any pred then l.map (fun r => if pred r then row else r) else l ++ [row]

/-- upsertPlaceCategories: link incoming known category keys, and assign the
first resolved one as primary when the entity has none (transactional in the
source; atomic here). Returns the changed flag. -/
def upsertPlaceCategories (st : Store) (placeId : String) (slugs : List String)
    (hasPrimaryAlready : Bool) : Store × Bool :=
  let uniq := dedupFirst (slugs.filter (fun s => !s.isEmpty))
  if uniq.isEmpty then (st, false)
  else
    let cats := st.placeCategories.filter (fun c => c.key ∈ uniq)
    match cats with
    | [] => (st, false)
    | c0 :: _ =>
        let existingLinks := st.placeToCategories.filter (fun l => l.placeId == placeId)
        let existingIds := existingLinks.map (·.categoryId)
        let newLinks := (cats.filter (fun c => c.id ∉ existingIds)).map
          (fun c => PlaceToCategoryRow.mk placeId c.id false)
        let changedLinks := !newLinks.isEmpty
        let st := { st with placeToCategories := st.placeToCategories ++ newLinks }
        let hasPrimary := hasPrimaryAlready || existingLinks.any (·.isPrimary)
        if hasPrimary then (st, changedLinks)
        else
          let st := { st with
            places := st.places.map (fun p =>
              if p.id == placeId then { p with mainCategoryId := some c0.id } else p),
            placeToCategories := upsertBy st.placeToCategories
              (fun l => l.placeId == placeId && l.categoryId == c0.id)
              (PlaceToCategoryRow.mk placeId c0.id true) }
          (st, true)

/-- One iteration of the ingestPlaces per-item loop (the try/catch body; a
thrown precondition becomes an error delta and the loop continues). -/
def processPlaceItem (ctx : PersistCtx) (provider : SourceType) (st : Store)
    (it : NormalizedPlaceLike) : Store × IngestStats :=
  let checksum := computeChecksumPlace it
  match matchOrCreatePlace ctx st it with
  | .error e => (st, { errors := 1, warnings := ["place error: " ++ e] })
  | .ok (mid, st₁) =>
    match st₁.places.find? (fun p => p.id == mid) with
    | none => (st₁, { errors := 1, warnings := ["Place not found after match: " ++ mid] })
    | some existing =>
      let update := buildPlaceUpdate
        { name := existing.name, address := existing.address,
          imageUrl := existing.imageUrl, url := existing.url }
        it provider it.sourceUpdatedAt
      let scores := scoreByCanonicalId "v1" existing.id
      let popU := if existing.popularityScore == some scores.popularityScore then none
        else some scores.popularityScore
      let qualU := if existing.qualityScore == some scores.qualityScore then none
        else some scores.qualityScore
      let freshU := if existing.freshnessScore == some scores.freshnessScore then none
        else some scores.freshnessScore
      let normCats := dedupFirst
        ((it.providerCategoriesRaw.map String.trim).filter (fun s => !s.isEmpty))
      let existingProvCats := splitProvCats (existing.providerCategories.getD "")
      let provCatsU : Option String :=
        if normCats.isEmpty then none
        else
          let unionStr := String.intercalate ", " (dedupFirst (existingProvCats ++ normCats))
          if (existing.providerCategories.getD "") == unionStr then none else some unionStr
      let provU := if existing.provider.isNone then some provider else none
      let mu := update.getD {}
      let combined : PlaceCombinedUpdate :=
        { name := mu.name, address := mu.address, lat := mu.lat, lng := mu.lng,
          imageUrl := mu.imageUrl, url := mu.url, rating := mu.rating,
          reviewCount := mu.reviewCount, popularityScore := popU, qualityScore := qualU,
          freshnessScore := freshU, provider := provU, providerCategories := provCatsU }
      let hasUpdate := !(combined == ({} : PlaceCombinedUpdate))
      let st₂ := if hasUpdate then updatePlaceRow st₁ mid combined else st₁
      let catRes :=
        if !it.categories.isEmpty then
          upsertPlaceCategories st₂ mid it.categories existing.mainCategoryId.isSome
        else (st₂, false)
      let st₃ := catRes.1
      let existingSource := st₃.placeSources.find? (fun r =>
        r.source == it.source.source && r.externalId == it.source.externalId)
      let srcRow : PlaceSourceRow := match existingSource with
        | some r => { r with placeId := mid, url := it.source.url, payload := it,
                             checksum := checksum, fetchedAt := ctx.now,
                             sourceUpdatedAt := it.sourceUpdatedAt }
        | none => { placeId := mid, source := it.source.source,
                    externalId := it.source.externalId, url := it.source.url, payload := it,
                    checksum := checksum, fetchedAt := ctx.now,
                    sourceUpdatedAt := it.sourceUpdatedAt }
      let newSources := upsertBy st₃.placeSources
        (fun r => r.source == it.source.source && r.externalId == it.source.externalId)
        srcRow
      let st₄ := { st₃ with placeSources := newSources }
      (st₄, { created := if existingSource.isNone then 1 else 0,
              updated := (if hasUpdate then 1 else 0) + (if catRes.2 then 1 else 0),
              unchanged := if !hasUpdate && existingSource.isSome then 1 else 0 })

/-- The ingestPlaces loop, accumulating per-item deltas. -/
def ingestPlacesGo (ctx : PersistCtx) (provider : SourceType) :
    List NormalizedPlaceLike → Store → Store × IngestStats
  | [], st => (st, {})
  | it :: rest, st =>
      let r := processPlaceItem ctx provider st it
      let r2 := ingestPlacesGo ctx provider rest r.1
      (r2.1, addStats r.2 r2.2)

/-- ingestPlaces: stats start at total = items.length; every item is processed
behind a per-item catch. -/
def ingestPlaces (ctx : PersistCtx) (provider : SourceType)
    (items : List NormalizedPlaceLike) (st : Store) : Store × IngestStats :=
  let r := ingestPlacesGo ctx provider items st
  (r.1, { r.2 with total := items.length })

/-! ## Persist service — events (src/modules/ingestion/persist.service.ts) -/

/-- The combined Prisma update object assembled by ingestEvents. -/
structure EventCombinedUpdate where
  title : Option String := none
  description : Option String := none
  imageUrl : Option String := none
  popularityScore : Option Rat := none
  qualityScore : Option Rat := none
  freshnessScore : Option Rat := none
  provider : Option SourceType := none
  providerCategories : Option String := none
  priceFrom : Option Rat := none
  priceTo : Option Rat := none
  currency : Option String := none
  isOnline : Option Bool := none
  ageLimit : Option Int := none
  languages : Option (List String) := none
  ticketsUrl : Option String := none
  deriving DecidableEq, Repr

/-- Apply an event update object to a row. -/
def applyEventUpdate (row : EventRow) (u : EventCombinedUpdate) : EventRow :=
  { row with
    title := match u.title with | some v => some v | none => row.title
    description := match u.description with | some v => some v | none => row.description
    imageUrl := match u.imageUrl with | some v => some v | none => row.imageUrl
    popularityScore := match u.popularityScore with | some v => some v | none => row.popularityScore
    qualityScore := match u.qualityScore with | some v => some v | none => row.qualityScore
    freshnessScore := match u.freshnessScore with | some v => some v | none => row.freshnessScore
    provider := match u.provider with | some v => some v | none => row.provider
    providerCategories := match u.providerCategories with
      | some v => some v | none => row.providerCategories
    priceFrom := match u.priceFrom with | some v => some v | none => row.priceFrom
    priceTo := match u.priceTo with | some v => some v | none => row.priceTo
    currency := match u.currency with | some v => some v | none => row.currency
    isOnline := match u.isOnline with | some v => some v | none => row.isOnline
    ageLimit := match u.ageLimit with | some v => some v | none => row.ageLimit
    languages := match u.languages with | some v => v | none => row.languages
    ticketsUrl := match u.ticketsUrl with | some v => some v | none => row.ticketsUrl }

/-- prisma.event.update keyed by id. -/
def updateEventRow (st : Store) (id : String) (u : EventCombinedUpdate) : Store :=
  { st with events := st.events.map (fun e => if e.id == id then applyEventUpdate e u else e) }

/-- upsertEventCategories, mirroring the place version. -/
def upsertEventCategories (st : Store) (eventId : String) (slugs : List String)
    (hasPrimaryAlready : Bool) : Store × Bool :=
  let uniq := dedupFirst (slugs.filter (fun s => !s.isEmpty))
  if uniq.isEmpty then (st, false)
  else
    let cats := st.eventCategories.filter (fun c => c.key ∈ uniq)
    match cats with
    | [] => (st, false)
    | c0 :: _ =>
        let existingLinks := st.eventToCategories.filter (fun l => l.eventId == eventId)
        let existingIds := existingLinks.map (·.categoryId)
        let newLinks := (cats.filter (fun c => c.id ∉ existingIds)).map
          (fun c => EventToCategoryRow.mk eventId c.id false)
        let changedLinks := !newLinks.isEmpty
        let st := { st with eventToCategories := st.eventToCategories ++ newLinks }
        let hasPrimary := hasPrimaryAlready || existingLinks.any (·.isPrimary)
        if hasPrimary then (st, changedLinks)
        else
          let st := { st with
            events := st.events.map (fun e =>
              if e.id == eventId then { e with mainCategoryId := some c0.id } else e),
            eventToCategories := upsertBy st.eventToCategories
              (fun l => l.eventId == eventId && l.categoryId == c0.id)
              (EventToCategoryRow.mk eventId c0.id true) }
          (st, true)

/-- findNearestPlaceId: bounding-box prefilter (cos oracle), first 20 rows,
haversine oracle, nearest within the 50 m default dedup radius. -/
def findNearestPlaceId (ctx : PersistCtx) (st : Store) (lat lon : Rat) : Option String :=
  let radius : Rat := 50
  let km := radius / 1000
  let degLat := km / (111.32 : Rat)
  let denom := (111.32 : Rat) * ctx.cosDeg lat
  let degLon := km / (if denom = 0 then 1 else denom)
  let cands := (st.places.filter (fun p =>
    p.isActive && p.moderation == "APPROVED" &&
    (match p.lat, p.lng with
     | some plat, some plon =>
         decide (lat - degLat ≤ plat) && decide (plat ≤ lat + degLat) &&
         decide (lon - degLon ≤ plon) && decide (plon ≤ lon + degLon)
     | _, _ => false))).take 20
  let best := cands.foldl (fun (best : Option (String × Rat)) p =>
    match p.lat, p.lng with
    | some plat, some plon =>
        let d := ctx.haversineMeters lat lon plat plon
        if d ≤ radius && (best.isNone || decide (d < (best.map (·.2)).getD 0)) then
          some (p.id, d)
        else best
    | _, _ => best) none
  best.map (·.1)

/-- Provider-supplied end time when it parses and lies strictly after start. -/
def providerEndValid (tl : TimeLike) (t0 : Int) : Option Int :=
  match tl.«end» with
  | some (some te) => if t0 < te then some te else none
  | _ => none

/-- Derived effective end: the valid provider end, else start plus the expected
duration (in minutes) of the first category slug. -/
def occEffectiveEnd (ctx : PersistCtx) (it : NormalizedEventLike) (tl : TimeLike)
    (t0 : Int) : Int :=
  match providerEndValid tl t0 with
  | some te => te
  | none =>
      let minutes := resolveExpectedDurationForEvent ctx.randEventMinutes it.categories.head?
      t0 + (minutes : Int) * 60 * 1000

/-- The endTime key of the occurrence update object: always assigned when the
end comes from the provider; otherwise only when the matched occurrence has no
end time yet (none means the key stays unassigned). -/
def occEndAssign (fromProvider : Bool) (effEnd : Int)
    (existingOcc : Option EventOccurrenceRow) : Option Int :=
  if fromProvider then some effEnd
  else match existingOcc with
    | none => some effEnd
    | some o => if o.endTime.isNone then some effEnd else none

/-- Candidate coordinates plus the best-effort nearest-place link. -/
def occLocAssign (ctx : PersistCtx) (st : Store) (it : NormalizedEventLike) :
    Option (Rat × Rat × Option String) :=
  match it.location with
  | some loc =>
      match loc.lat, loc.lon with
      | some lat, some lon => some (lat, lon, findNearestPlaceId ctx st lat lon)
      | _, _ => none
  | none => none

/-- Apply the occurrence update object to a matched row. -/
def occApplyUpdate (o : EventOccurrenceRow) (tl : TimeLike) (it : NormalizedEventLike)
    (endAssign : Option Int) (locAssign : Option (Rat × Rat × Option String)) :
    EventOccurrenceRow :=
  let o₁ := { o with timezone := tl.timezone, url := it.url,
                     endTime := match endAssign with | some v => some v | none => o.endTime }
  match locAssign with
  | some (lat, lon, pid) =>
      { o₁ with lat := some lat, lng := some lon,
                placeId := match pid with | some p => some p | none => o₁.placeId }
  | none => o₁

/-- Build the freshly created occurrence row. -/
def occCreateRow (st : Store) (eventId : String) (t0 : Int) (tl : TimeLike)
    (it : NormalizedEventLike) (endAssign : Option Int)
    (locAssign : Option (Rat × Rat × Option String)) : EventOccurrenceRow :=
  { id := "occ-" ++ toString st.nextId, eventId := eventId, startTime := t0,
    endTime := endAssign, timezone := tl.timezone, url := it.url,
    lat := locAssign.map (·.1), lng := locAssign.map (·.2.1),
    placeId := locAssign.bind (·.2.2) }

/-- The idempotent EventOccurrence upsert keyed by exact startTime (persist
lines 306–367): a valid provider end always wins; otherwise an end is
synthesized from the expected duration of the first category slug, but only
when the matched occurrence has no end yet. -/
def upsertEventOccurrence (ctx : PersistCtx) (st : Store) (eventId : String)
    (it : NormalizedEventLike) (tl : TimeLike) (t0 : Int) : Store :=
  let effEnd := occEffectiveEnd ctx it tl t0
  let existingOcc := st.eventOccurrences.find? (fun o =>
    o.eventId == eventId && o.startTime == t0)
  let endAssign := occEndAssign (providerEndValid tl t0).isSome effEnd existingOcc
  let locAssign := occLocAssign ctx st it
  match existingOcc with
  | some o =>
      { st with eventOccurrences := st.eventOccurrences.map (fun x =>
          if x.id == o.id then occApplyUpdate o tl it endAssign locAssign else x) }
  | none =>
      { st with
        eventOccurrences := st.eventOccurrences ++
          [occCreateRow st eventId t0 tl it endAssign locAssign],
        nextId := st.nextId + 1 }

/-- clamp01 from ingestEvents. -/
def clamp01 (q : Rat) : Rat := max 0 (min 1 q)

/-- One iteration of the ingestEvents per-item loop. An unparseable start date
(Invalid Date handed to prisma) throws mid-item; the stats increments already
made for that item are kept and the error is counted, as in the source. -/
def processEventItem (ctx : PersistCtx) (provider : SourceType) (st : Store)
    (it : NormalizedEventLike) : Store × IngestStats :=
  let checksum := computeChecksumEvent it
  match matchOrCreateEvent st it with
  | .error e => (st, { errors := 1, warnings := ["event error: " ++ e] })
  | .ok (mid, st₁) =>
    match st₁.events.find? (fun p => p.id == mid) with
    | none => (st₁, { errors := 1, warnings := ["Event not found after match: " ++ mid] })
    | some existing =>
      let update := buildEventUpdate
        { title := existing.title, description := existing.description,
          imageUrl := existing.imageUrl }
        it provider it.sourceUpdatedAt
      let scores := scoreByCanonicalId "v1" existing.id
      let boostedQual := clamp01 (scores.qualityScore + ctx.qualityBoost)
      let popU := if existing.popularityScore == some scores.popularityScore then none
        else some scores.popularityScore
      let qualU := if existing.qualityScore == some boostedQual then none
        else some boostedQual
      let freshU := if existing.freshnessScore == some scores.freshnessScore then none
        else some scores.freshnessScore
      let normCats := dedupFirst
        ((it.providerCategoriesRaw.map String.trim).filter (fun s => !s.isEmpty))
      let existingProvCats := splitProvCats (existing.providerCategories.getD "")
      let provCatsU : Option String :=
        if normCats.isEmpty then none
        else
          let unionStr := String.intercalate ", " (dedupFirst (existingProvCats ++ normCats))
          if (existing.providerCategories.getD "") == unionStr then none else some unionStr
      let provU := if existing.provider.isNone then some provider else none
      let extPriceFrom := match it.priceFrom with
        | some v => if existing.priceFrom == some v then none else some v
        | none => none
      let extPriceTo := match it.priceTo with
        | some v => if existing.priceTo == some v then none else some v
        | none => none
      let extCurrency := match it.currency with
        | some v => if v.isEmpty || existing.currency == some v then none else some v
        | none => none
      let extIsOnline := match it.isOnline with
        | some b => if existing.isOnline == some b then none else some b
        | none => none
      let extAgeLimit := match it.ageLimit with
        | some n => if existing.ageLimit == some n then none else some n
        | none => none
      let extLanguages := match it.languages with
        | some l => if l.isEmpty || l == existing.languages then none else some l
        | none => none
      let extTicketsUrl := match it.ticketsUrl with
        | some v => if v.isEmpty || existing.ticketsUrl == some v then none else some v
        | none => none
      let mu := update.getD {}
      let combined : EventCombinedUpdate :=
        { title := mu.title, description := mu.description, imageUrl := mu.imageUrl,
          popularityScore := popU, qualityScore := qualU, freshnessScore := freshU,
          provider := provU, providerCategories := provCatsU, priceFrom := extPriceFrom,
          priceTo := extPriceTo, currency := extCurrency, isOnline := extIsOnline,
          ageLimit := extAgeLimit, languages := extLanguages, ticketsUrl := extTicketsUrl }
      let hasUpdate := !(combined == ({} : EventCombinedUpdate))
      let st₂ := if hasUpdate then updateEventRow st₁ mid combined else st₁
      let catRes :=
        if !it.categories.isEmpty then
          upsertEventCategories st₂ mid it.categories existing.mainCategoryId.isSome
        else (st₂, false)
      let st₃ := catRes.1
      let updatedD := (if hasUpdate then 1 else 0) + (if catRes.2 then 1 else 0)
      let occRes : Except String Store :=
        match it.time with
        | some tl =>
            match tl.start with
            | some (some t0) => .ok (upsertEventOccurrence ctx st₃ mid it tl t0)
            | some none => .error "invalid start date"
            | none => .ok st₃
        | none => .ok st₃
      match occRes with
      | .error e => (st₃, { updated := updatedD, errors := 1,
                            warnings := ["event error: " ++ e] })
      | .ok st₄ =>
        let existingSource := st₄.eventSources.find? (fun r =>
          r.source == it.source.source && r.externalId == it.source.externalId)
        let srcRow : EventSourceRow := match existingSource with
          | some r => { r with eventId := mid, url := it.source.url, payload := it,
                               checksum := checksum, fetchedAt := ctx.now,
                               sourceUpdatedAt := it.sourceUpdatedAt }
          | none => { eventId := mid, source := it.source.source,
                      externalId := it.source.externalId, url := it.source.url,
                      payload := it, checksum := checksum, fetchedAt := ctx.now,
                      sourceUpdatedAt := it.sourceUpdatedAt }
        let newSources := upsertBy st₄.eventSources
          (fun r => r.source == it.source.source && r.externalId == it.source.externalId)
          srcRow
        let st₅ := { st₄ with eventSources := newSources }
        (st₅, { created := if existingSource.isNone then 1 else 0,
                updated := updatedD,
                unchanged := if !hasUpdate && existingSource.isSome then 1 else 0 })

/-- The ingestEvents loop, accumulating per-item deltas. -/
def ingestEventsGo (ctx : PersistCtx) (provider : SourceType) :
    List NormalizedEventLike → Store → Store × IngestStats
  | [], st => (st, {})
  | it :: rest, st =>
      let r := processEventItem ctx provider st it
      let r2 := ingestEventsGo ctx provider rest r.1
      (r2.1, addStats r.2 r2.2)

/-- ingestEvents: stats start at total = items.length; every item is processed
behind a per-item catch. -/
def ingestEvents (ctx : PersistCtx) (provider : SourceType)
    (items : List NormalizedEventLike) (st : Store) : Store × IngestStats :=
  let r := ingestEventsGo ctx provider items st
  (r.1, { r.2 with total := items.length })

/-! ## Search cache key construction (cache.service.ts helpers and the
keyParts object of search.routes.ts) -/

/-- Math.round: round half toward positive infinity. For x = n/d this is
floor(x + 1/2) = fdiv (2n + d) (2d). -/
def jsRound (x : Rat) : Int := Int.fdiv (2 * x.num + (x.den : Int)) (2 * (x.den : Int))

/-- roundGeo with the default 5 digits: Math.round(v * 10^5) / 10^5, written
with mkRat over the numerator/denominator so that it evaluates by reduction
(the value is identical to the field-arithmetic form). Callers in keyParts
only invoke it on present (non-null) coordinates. -/
def roundGeo (v : Rat) : Rat :=
  mkRat (jsRound (mkRat (v.num * 100000) v.den)) 100000

/-- Math.round(r * 2) / 2 — the 0.5 km radius step of the geo key part. -/
def roundHalfStep (r : Rat) : Rat :=
  mkRat (jsRound (mkRat (r.num * 2) r.den)) 2

/-- Lexicographic comparison of code-unit lists (the order JS default sort
imposes on strings). -/
def listNatLe : List Nat → List Nat → Bool
  | [], _ => true
  | _ :: _, [] => false
  | x :: xs, y :: ys => if x < y then true else if y < x then false else listNatLe xs ys

/-- JS string comparison by code units (agrees with UTF-16 order on the ASCII
filter slugs this code sorts). -/
def jsStrLeB (a b : String) : Bool :=
  listNatLe (a.data.map Char.toNat) (b.data.map Char.toNat)

/-- The sort relation of the JS default comparator. -/
def jsStrLe (a b : String) : Prop := jsStrLeB a b = true

instance : DecidableRel jsStrLe := fun a b => instDecidableEqBool (jsStrLeB a b) true

/-- normalizeArray: [...arr].sort() — JS default sort on strings is
lexicographic by code units; the result is the sorted permutation (note: no
deduplication). -/
def normalizeArray (arr : Option (List String)) : Option (List String) :=
  arr.map (List.insertionSort jsStrLe)

/-- JSON string escaping (stringify): quote, backslash and control characters. -/
def jsonEscapeChar (c : Char) : List Char :=
  if c = '"' then ['\\', '"']
  else if c = '\\' then ['\\', '\\']
  else if c = (Char.ofNat 10) then ['\\', 'n']
  else if c = (Char.ofNat 13) then ['\\', 'r']
  else if c = (Char.ofNat 9) then ['\\', 't']
  else if c.toNat < 32 then
    ['\\', 'u', '0', '0', hexDigitChar (c.toNat / 16), hexDigitChar (c.toNat % 16)]
  else [c]

/-- JSON string literal. -/
def jsonString (s : String) : String :=
  "\"" ++ String.mk ((s.data.map jsonEscapeChar).foldr (· ++ ·) []) ++ "\""

/-- JSON rendering of a number whose decimal expansion terminates (every number
reaching the key parts is an integer or a rounded decimal); matches the
shortest-round-trip printing JS uses for such values. -/
def jsNumberString (q : Rat) : String :=
  if q.den = 1 then toString q.num
  else match (List.range 31).find? (fun k => 10 ^ k % q.den == 0) with
    | some k =>
        let m := q.num * ((10 : Int) ^ k) / (q.den : Int)
        let sign := if m < 0 then "-" else ""
        let a := m.natAbs
        let ip := a / 10 ^ k
        let fp := a % 10 ^ k
        let fpStr := toString fp
        let fpPad := String.mk (List.replicate (k - fpStr.length) '0') ++ fpStr
        sign ++ toString ip ++ "." ++ fpPad
    | none => toString q.num ++ "/" ++ toString q.den

/-- The query shapes feeding the search cache key (search.schemas.ts subset). -/
structure CityQ where
  id : Option Int := none
  name : Option String := none
  deriving DecidableEq, Repr

structure BBoxQ where
  south : Rat
  west : Rat
  north : Rat
  east : Rat
  deriving DecidableEq, Repr

structure GeoQ where
  lat : Rat
  lon : Rat
  radiusKm : Option Rat := none
  deriving DecidableEq, Repr

inductive WhenQ where
  | preset (p : String)
  | range (fromS toS : String)
  deriving DecidableEq, Repr

structure FiltersQ where
  categorySlugs : Option (List String) := none
  sources : Option (List String) := none
  deriving DecidableEq, Repr

structure BudgetQ where
  tier : Option String := none
  deriving DecidableEq, Repr

structure PaginationQ where
  limit : Option Int := none
  page : Option Int := none
  deriving DecidableEq, Repr

structure WhereQ where
  city : Option CityQ := none
  bbox : Option BBoxQ := none
  geo : Option GeoQ := none
  deriving DecidableEq, Repr

structure SearchRequest where
  target : String
  sort : Option String := none
  pagination : Option PaginationQ := none
  «where» : Option WhereQ := none
  when : Option WhenQ := none
  filters : Option FiltersQ := none
  budget : Option BudgetQ := none
  deriving DecidableEq, Repr

/-- The normalized keyParts object built by the search route. -/
structure KeyParts where
  target : String
  sort : Option String
  limit : Int
  page : Int
  offset : Int
  cityId : Option Int
  bbox : Option (Rat × Rat × Rat × Rat)
  geo : Option (Rat × Rat × Rat)
  when : Option WhenQ
  categories : Option (List String)
  sources : Option (List String)
  priceTier : Option String
  deriving DecidableEq, Repr

/-- keyParts from search.routes.ts: derived pagination, rounded geo, truncated
range windows, sorted filter arrays, ANY price tier dropped. -/
def keyParts (query : SearchRequest) : KeyParts :=
  let effLimit := (query.pagination.bind (·.limit)).getD 100
  let effPage := (query.pagination.bind (·.page)).getD 1
  let effOffset := max 0 ((effPage - 1) * effLimit)
  { target := query.target
    sort := query.sort
    limit := effLimit
    page := effPage
    offset := effOffset
    cityId := (query.«where».bind (·.city)).bind (·.id)
    bbox := (query.«where».bind (·.bbox)).map (fun b =>
      (roundGeo b.south, roundGeo b.west, roundGeo b.north, roundGeo b.east))
    geo := (query.«where».bind (·.geo)).map (fun g =>
      (roundGeo g.lat, roundGeo g.lon, roundHalfStep (g.radiusKm.getD 5)))
    when := match query.when with
      | some (.preset p) => some (.preset p)
      | some (.range f t) => some (.range (f.take 13) (t.take 13))
      | none => none
    categories := normalizeArray (query.filters.bind (·.categorySlugs))
    sources := normalizeArray (query.filters.bind (·.sources))
    priceTier := match query.budget.bind (·.tier) with
      | some t => if t.isEmpty || t = "ANY" then none else some t
      | none => none }

/-- JSON.stringify of the keyParts object literal: keys in insertion order,
undefined-valued members dropped. -/
def jsonOfKeyParts (kp : KeyParts) : String :=
  let jsonArr := fun (l : List String) =>
    "[" ++ String.intercalate "," (l.map jsonString) ++ "]"
  let fields : List (Option (String × String)) :=
    [some ("target", jsonString kp.target),
     kp.sort.map (fun s => ("sort", jsonString s)),
     some ("limit", toString kp.limit),
     some ("page", toString kp.page),
     some ("offset", toString kp.offset),
     kp.cityId.map (fun i => ("cityId", toString i)),
     kp.bbox.map (fun b => ("bbox",
       "\x7b\"south\":" ++ jsNumberString b.1 ++ ",\"west\":" ++ jsNumberString b.2.1 ++
       ",\"north\":" ++ jsNumberString b.2.2.1 ++ ",\"east\":" ++ jsNumberString b.2.2.2 ++
       "\x7d")),
     kp.geo.map (fun g => ("geo",
       "\x7b\"lat\":" ++ jsNumberString g.1 ++ ",\"lon\":" ++ jsNumberString g.2.1 ++
       ",\"radiusKm\":" ++ jsNumberString g.2.2 ++ "\x7d")),
     kp.when.map (fun w => ("when", match w with
       | .preset p => "\x7b\"type\":\"preset\",\"preset\":" ++ jsonString p ++ "\x7d"
       | .range f t => "\x7b\"type\":\"range\",\"from\":" ++ jsonString f ++
           ",\"to\":" ++ jsonString t ++ "\x7d")),
     some ("filters",
       "\x7b" ++ String.intercalate ","
         ((([(kp.categories.map (fun l => "\"categories\":" ++ jsonArr l)),
             (kp.sources.map (fun l => "\"sources\":" ++ jsonArr l)),
             (kp.priceTier.map (fun t => "\"priceTier\":" ++ jsonString t))].filterMap id))) ++
       "\x7d")]
  "\x7b" ++ String.intercalate ","
    ((fields.filterMap id).map (fun kv => jsonString kv.1 ++ ":" ++ kv.2)) ++ "\x7d"

/-- buildKey from cache.service.ts: ns:prefix:sha1hex(JSON.stringify(parts)),
applied to the search keyParts. -/
def buildKey (c : CacheConfig) (pre : String) (parts : KeyParts) : String :=
  c.ns ++ ":" ++ pre ++ ":" ++ sha1 (jsonOfKeyParts parts)

/-- The search cache key of a request. -/
def searchCacheKey (c : CacheConfig) (query : SearchRequest) : String :=
  buildKey c "search" (keyParts query)

/-! ## Theorems -/

/-- C1: the spec requires a freshness gate — with `sourceUpdatedAt` strictly older
than the data already recorded for the canonical entity, buildPlaceUpdate and
buildEventUpdate must return null even when incoming fields would fill missing
values. The code ignores the `sourceUpdatedAt` argument entirely (first conjunct:
the result never depends on it), and at the concrete failing input — an existing
record with a missing name and a candidate supplying one, with incoming timestamp
0 ms while the recorded snapshot timestamp is 1000 ms — both builders return a
non-null update instead of null. -/
theorem C1_freshness_gate_not_implemented :
    (∀ e n s t₁ t₂, buildPlaceUpdate e n s t₁ = buildPlaceUpdate e n s t₂) ∧
    (∀ e n s t₁ t₂, buildEventUpdate e n s t₁ = buildEventUpdate e n s t₂) ∧
    buildPlaceUpdate {} { name := some "Fresh Cafe",
                          source := ⟨SourceType.GOOGLE_PLACES, "ext-1", none⟩ }
      SourceType.GOOGLE_PLACES (some 0) = some { name := some "Fresh Cafe" } ∧
    buildEventUpdate {} { title := some "Fresh Show",
                          source := ⟨SourceType.TICKETMASTER, "ext-2", none⟩ }
      SourceType.TICKETMASTER (some 0) = some { title := some "Fresh Show" } :=
  ⟨fun _ _ _ _ _ => rfl, fun _ _ _ _ _ => rfl, by decide, by decide⟩

/-- C6: the claim that a populated incoming value only changes a previously
empty field — and in particular that coordinates are set only if the existing
coordinates are missing — fails: buildPlaceUpdate assigns incoming lat/lng
unconditionally (the `??=` guards the freshly created update object, and the
existing coordinates are not even part of its input), so an existing record
whose stored coordinates are present still receives a coordinate update. -/
theorem C6_coordinates_overwritten_despite_existing :
    buildPlaceUpdate
      { name := some "Old Name", address := some "Old Addr", imageUrl := some "img",
        url := some "u", rating := some 4, reviewCount := some 10 }
      { location := some ⟨some 3, some 4⟩,
        source := ⟨SourceType.GOOGLE_PLACES, "ext-3", none⟩ }
      SourceType.GOOGLE_PLACES none
      = some { lat := some 3, lng := some 4 } := by
  decide

/-! ### Association-list lemmas -/

theorem alistGet_cons {α : Type} (k' : String) (v' : α) (l : List (String × α)) (k : String) :
    alistGet ((k', v') :: l) k = if k' = k then some v' else alistGet l k := by
  by_cases h : k' = k <;> simp [alistGet, List.find?_cons, h]

theorem alistGet_set_self {α : Type} (l : List (String × α)) (k : String) (v : α) :
    alistGet (alistSet l k v) k = some v := by
  induction l with
  | nil => simp [alistSet, alistGet_cons]
  | cons e rest ih =>
      obtain ⟨ek, ev⟩ := e
      by_cases h : ek = k
      · simp [alistSet, h, alistGet_cons]
      · rw [alistSet, if_neg (by simpa using h), alistGet_cons, if_neg h]
        exact ih

theorem alistGet_set_ne {α : Type} (l : List (String × α)) (k k' : String) (v : α)
    (h : k' ≠ k) : alistGet (alistSet l k v) k' = alistGet l k' := by
  induction l with
  | nil => simp [alistSet, alistGet_cons, alistGet, Ne.symm h]
  | cons e rest ih =>
      obtain ⟨ek, ev⟩ := e
      by_cases he : ek = k
      · subst he
        rw [alistSet, if_pos (by simp), alistGet_cons, if_neg (Ne.symm h),
          alistGet_cons, if_neg (Ne.symm h)]
      · rw [alistSet, if_neg (by simpa using he), alistGet_cons, alistGet_cons]
        by_cases hk : ek = k'
        · simp [hk]
        · simp only [hk, if_false]
          exact ih

theorem alistGet_del_self {α : Type} (l : List (String × α)) (k : String) :
    alistGet (alistDel l k) k = none := by
  induction l with
  | nil => simp [alistDel, alistGet]
  | cons e rest ih =>
      obtain ⟨ek, ev⟩ := e
      by_cases h : ek = k
      · simpa [alistDel, h] using ih
      · rw [alistDel] at ih ⊢
        rw [List.filter_cons]
        simp only [bne_iff_ne, ne_eq, h, not_false_iff, if_true]
        rw [alistGet_cons, if_neg h]
        exact ih

theorem alistGet_del_ne {α : Type} (l : List (String × α)) (k k' : String)
    (h : k' ≠ k) : alistGet (alistDel l k) k' = alistGet l k' := by
  induction l with
  | nil => simp [alistDel]
  | cons e rest ih =>
      obtain ⟨ek, ev⟩ := e
      by_cases he : ek = k
      · subst he
        rw [alistDel] at ih ⊢
        rw [List.filter_cons]
        simp only [bne_self_eq_false, if_false, Bool.false_eq_true]
        rw [alistGet_cons, if_neg (fun hh => h hh.symm)]
        exact ih
      · rw [alistDel] at ih ⊢
        rw [List.filter_cons]
        simp only [bne_iff_ne, ne_eq, he, not_false_iff, if_true]
        rw [alistGet_cons, alistGet_cons]
        by_cases hk : ek = k'
        · simp [hk]
        · simp only [hk, if_false]
          exact ih

theorem key_ne_freshKey (k : String) : k ≠ k ++ ":fresh" := by
  intro h
  have hlen := congrArg String.length h
  rw [String.length_append] at hlen
  have h6 : (":fresh").length = 6 := rfl
  omega

/-- C7: setJSONWithSWR stores the payload under the data key with TTL
freshWindow + staleWindow and a separate freshness marker with TTL freshWindow
only; getJSONWithSWR then returns the stored payload with stale=false while the
marker is alive, and stale=true (still returning the payload) once only the
marker has been deleted. -/
theorem C7_swr_storage_and_read
    (c : CacheConfig) (st₀ : RedisState) (k p : String) (fresh stale now t : Int)
    (hen : c.enabled = true) (hf : 0 < fresh) (hs : 0 < stale) :
    (alistGet (setJSONWithSWR c now k p fresh stale [] st₀).store k = some p ∧
      alistGet (setJSONWithSWR c now k p fresh stale [] st₀).expiry k
        = some (now + (fresh + stale) * 1000)) ∧
    (alistGet (setJSONWithSWR c now k p fresh stale [] st₀).store (k ++ ":fresh") = some "1" ∧
      alistGet (setJSONWithSWR c now k p fresh stale [] st₀).expiry (k ++ ":fresh")
        = some (now + fresh * 1000)) ∧
    (t ≤ now + fresh * 1000 →
      getJSONWithSWR c t k (setJSONWithSWR c now k p fresh stale [] st₀) = some (p, false)) ∧
    (t ≤ now + (fresh + stale) * 1000 →
      getJSONWithSWR c t k
        ((redisDel (setJSONWithSWR c now k p fresh stale [] st₀) [k ++ ":fresh"]).2)
        = some (p, true)) := by
  have hkne := key_ne_freshKey k
  have hmax : max 0 stale = stale := max_eq_right hs.le
  have htot : max 0 (fresh + stale) = fresh + stale := max_eq_right (by omega)
  have hst : setJSONWithSWR c now k p fresh stale [] st₀ =
      redisSetEx now (redisSetEx now st₀ k p (fresh + stale)) (k ++ ":fresh") "1" fresh := by
    simp only [setJSONWithSWR, hen, Bool.not_true, Bool.false_eq_true, if_false, hmax, htot,
      List.filter_nil, List.foldl_nil]
    rw [if_pos (by omega), if_pos (by omega)]
  have hstore : (setJSONWithSWR c now k p fresh stale [] st₀).store =
      alistSet (alistSet st₀.store k p) (k ++ ":fresh") "1" := by
    rw [hst]
    simp only [redisSetEx, redisSet]
    rw [if_pos (by omega), if_pos (by omega)]
  have hexp : (setJSONWithSWR c now k p fresh stale [] st₀).expiry =
      alistSet (alistDel (alistSet (alistDel st₀.expiry k) k (now + (fresh + stale) * 1000))
        (k ++ ":fresh")) (k ++ ":fresh") (now + fresh * 1000) := by
    rw [hst]
    simp only [redisSetEx, redisSet]
    rw [if_pos (by omega), if_pos (by omega)]
  have hgetk : alistGet (setJSONWithSWR c now k p fresh stale [] st₀).store k = some p := by
    rw [hstore, alistGet_set_ne _ _ _ _ hkne, alistGet_set_self]
  have hgetexpk : alistGet (setJSONWithSWR c now k p fresh stale [] st₀).expiry k
      = some (now + (fresh + stale) * 1000) := by
    rw [hexp, alistGet_set_ne _ _ _ _ hkne, alistGet_del_ne _ _ _ hkne, alistGet_set_self]
  have hgetm : alistGet (setJSONWithSWR c now k p fresh stale [] st₀).store (k ++ ":fresh")
      = some "1" := by
    rw [hstore, alistGet_set_self]
  have hgetexpm : alistGet (setJSONWithSWR c now k p fresh stale [] st₀).expiry (k ++ ":fresh")
      = some (now + fresh * 1000) := by
    rw [hexp, alistGet_set_self]
  refine ⟨⟨hgetk, hgetexpk⟩, ⟨hgetm, hgetexpm⟩, ?_, ?_⟩
  · intro ht
    have hnexp : redisExpired t (setJSONWithSWR c now k p fresh stale [] st₀) k = false := by
      simp only [redisExpired, hgetexpk]
      simp only [decide_eq_false_iff_not, not_lt]
      omega
    have hnexpm : redisExpired t (setJSONWithSWR c now k p fresh stale [] st₀)
        (k ++ ":fresh") = false := by
      simp only [redisExpired, hgetexpm]
      simp only [decide_eq_false_iff_not, not_lt]
      omega
    simp only [getJSONWithSWR, hen, Bool.not_true, Bool.false_eq_true, if_false,
      redisGet, hnexp, hgetk, redisExists, hnexpm, hgetm, Option.isSome_some, if_true]
    rfl
  · intro ht
    have hdel : (redisDel (setJSONWithSWR c now k p fresh stale [] st₀) [k ++ ":fresh"]).2 =
        { store := alistDel (setJSONWithSWR c now k p fresh stale [] st₀).store (k ++ ":fresh"),
          sets := (setJSONWithSWR c now k p fresh stale [] st₀).sets,
          expiry := alistDel (setJSONWithSWR c now k p fresh stale [] st₀).expiry
            (k ++ ":fresh") } := by
      simp [redisDel]
    rw [hdel]
    have hgk : alistGet (alistDel (setJSONWithSWR c now k p fresh stale [] st₀).store
        (k ++ ":fresh")) k = some p := by
      rw [alistGet_del_ne _ _ _ hkne, hgetk]
    have hek : alistGet (alistDel (setJSONWithSWR c now k p fresh stale [] st₀).expiry
        (k ++ ":fresh")) k = some (now + (fresh + stale) * 1000) := by
      rw [alistGet_del_ne _ _ _ hkne, hgetexpk]
    have hgm : alistGet (alistDel (setJSONWithSWR c now k p fresh stale [] st₀).store
        (k ++ ":fresh")) (k ++ ":fresh") = none := alistGet_del_self _ _
    simp only [getJSONWithSWR, hen, Bool.not_true, Bool.false_eq_true, if_false,
      redisGet, redisExpired, hek, hgk, hgm, redisExists]
    rw [if_neg (by simp only [decide_eq_true_eq]; omega)]
    simp

/-- Witness for C7 at a concrete instance: freshWindow 60s, staleWindow 300s,
written at time 0, read at t = 30000 ms; the read is fresh before the marker is
deleted and stale (with the same payload) afterwards. -/
theorem C7_swr_storage_and_read_witness :
    getJSONWithSWR ⟨true, true, "v1", 10⟩ 30000 "key1"
      (setJSONWithSWR ⟨true, true, "v1", 10⟩ 0 "key1" "data1" 60 300 [] {})
      = some ("data1", false) ∧
    getJSONWithSWR ⟨true, true, "v1", 10⟩ 30000 "key1"
      ((redisDel (setJSONWithSWR ⟨true, true, "v1", 10⟩ 0 "key1" "data1" 60 300 [] {})
        ["key1" ++ ":fresh"]).2)
      = some ("data1", true) :=
  ⟨(C7_swr_storage_and_read ⟨true, true, "v1", 10⟩ {} "key1" "data1" 60 300 0 30000
      rfl (by decide) (by decide)).2.2.1 (by decide),
   (C7_swr_storage_and_read ⟨true, true, "v1", 10⟩ {} "key1" "data1" 60 300 0 30000
      rfl (by decide) (by decide)).2.2.2 (by decide)⟩

/-- Helper: with the cache enabled and the lock key held (live), withLock skips. -/
theorem withLock_skip {α : Type} (c : CacheConfig) (now : Int) (lockKey : String)
    (fn : RedisState → Except String α × RedisState) (st : RedisState)
    (hen : c.enabled = true) (hheld : (redisGet now st lockKey).isSome = true) :
    withLock c now lockKey fn st = (Except.ok none, st) := by
  simp only [withLock, hen, Bool.not_true, Bool.false_eq_true, if_false,
    redisSetNxEx, hheld, if_true]

/-- Helper: with the cache enabled and the lock key free, withLock runs the
function on the locked state, deletes the lock, and returns the mapped outcome. -/
theorem withLock_run {α : Type} (c : CacheConfig) (now : Int) (lockKey : String)
    (fn : RedisState → Except String α × RedisState) (st : RedisState)
    (hen : c.enabled = true) (hfree : redisGet now st lockKey = none) :
    withLock c now lockKey fn st =
      ((fn (redisSetEx now st lockKey "1" c.lockTtl)).1.map some,
        (redisDel (fn (redisSetEx now st lockKey "1" c.lockTtl)).2 [lockKey]).2) := by
  simp only [withLock, hen, Bool.not_true, Bool.false_eq_true, if_false,
    redisSetNxEx, hfree, Option.isSome_none, Bool.false_eq_true]

/-- C8: withLock on a held lock key returns null without executing the protected
function (the state is untouched); on a free key it runs the function against
the locked state, returns its outcome (errors propagate), and deletes the lock
key afterwards in all cases, so a later withLock on the same key does not skip. -/
theorem C8_withLock_exclusion_and_release {α : Type}
    (c : CacheConfig) (now now₂ : Int) (lockKey : String)
    (fn g : RedisState → Except String α × RedisState) (st : RedisState)
    (hen : c.enabled = true) :
    ((redisGet now st lockKey).isSome = true →
      withLock c now lockKey fn st = (Except.ok none, st)) ∧
    ((redisGet now st lockKey) = none →
      withLock c now lockKey fn st =
        ((fn (redisSetEx now st lockKey "1" c.lockTtl)).1.map some,
          (redisDel (fn (redisSetEx now st lockKey "1" c.lockTtl)).2 [lockKey]).2) ∧
      alistGet (withLock c now lockKey fn st).2.store lockKey = none ∧
      (withLock c now₂ lockKey g (withLock c now lockKey fn st).2).1 ≠ Except.ok none) := by
  refine ⟨fun hheld => withLock_skip c now lockKey fn st hen hheld, fun hfree => ?_⟩
  have hrun := withLock_run c now lockKey fn st hen hfree
  have hstore : alistGet (withLock c now lockKey fn st).2.store lockKey = none := by
    rw [hrun]
    simp only [redisDel, List.foldl_cons, List.foldl_nil]
    exact alistGet_del_self _ _
  refine ⟨hrun, hstore, ?_⟩
  have hget2 : redisGet now₂ (withLock c now lockKey fn st).2 lockKey = none := by
    simp only [redisGet, hstore]
    split <;> rfl
  rw [withLock_run c now₂ lockKey g _ hen hget2]
  cases hg : (g (redisSetEx now₂ (withLock c now lockKey fn st).2 lockKey "1" c.lockTtl)).1
  case error e => simp [hg, Except.map]
  case ok a => simp [hg, Except.map]

/-- Witness for C8 at concrete instances: with a pre-set lock the protected
function is skipped and the state is unchanged; with a free lock the function
runs, its result is returned, and the lock key is gone afterwards. -/
theorem C8_withLock_exclusion_and_release_witness :
    (withLock (α := Nat) ⟨true, true, "v1", 10⟩ 0 "lock:busy"
        (fun s => (Except.ok 7, s))
        { store := [("lock:busy", "1")], sets := [], expiry := [] }
      = (Except.ok none, { store := [("lock:busy", "1")], sets := [], expiry := [] })) ∧
    (withLock (α := Nat) ⟨true, true, "v1", 10⟩ 0 "lock:free"
        (fun s => (Except.ok 7, s)) {}
      = (Except.ok (some 7), { store := [], sets := [], expiry := [] })) :=
  ⟨(C8_withLock_exclusion_and_release ⟨true, true, "v1", 10⟩ 0 0 "lock:busy"
      (fun s => (Except.ok 7, s)) (fun s => (Except.ok 7, s))
      { store := [("lock:busy", "1")], sets := [], expiry := [] } rfl).1 (by decide),
   (((C8_withLock_exclusion_and_release ⟨true, true, "v1", 10⟩ 0 0 "lock:free"
      (fun s => (Except.ok 7, s)) (fun s => (Except.ok 7, s)) {} rfl).2 rfl).1).trans (by rfl)⟩

/-- C10: when caching is disabled or no redis client is present
(enabled = hasRedis && CACHE_ENABLED is false), withLock executes the protected
function immediately against the given state and returns its result, touching no
lock key; consequently a second caller on the resulting state also runs its
function — no mutual exclusion applies in degraded mode. -/
theorem C10_withLock_disabled_runs_directly {α : Type}
    (c : CacheConfig) (now now₂ : Int) (lockKey : String)
    (fn g : RedisState → Except String α × RedisState) (st : RedisState)
    (hdis : c.enabled = false) :
    withLock c now lockKey fn st = ((fn st).1.map some, (fn st).2) ∧
    (withLock c now₂ lockKey g (fn st).2).1 = (g (fn st).2).1.map some := by
  constructor
  · simp only [withLock, hdis, Bool.not_false, if_true]
  · simp only [withLock, hdis, Bool.not_false, if_true]

/-- Witness for C10: with caching disabled (no redis client), withLock runs the
function even though the lock key is present in the store. -/
theorem C10_withLock_disabled_runs_directly_witness :
    withLock (α := Nat) ⟨false, true, "v1", 10⟩ 0 "lock:busy"
        (fun s => (Except.ok 5, s))
        { store := [("lock:busy", "1")], sets := [], expiry := [] }
      = (Except.ok (some 5),
          { store := [("lock:busy", "1")], sets := [], expiry := [] }) :=
  (C10_withLock_disabled_runs_directly ⟨false, true, "v1", 10⟩ 0 0 "lock:busy"
      (fun s => (Except.ok 5, s)) (fun s => (Except.ok 5, s))
      { store := [("lock:busy", "1")], sets := [], expiry := [] } rfl).1

/-! ### Digest byte bounds and the score range -/

theorem beBytes_lt (k : Nat) : ∀ (n : Nat), ∀ x ∈ beBytes k n, x < 256 := by
  induction k with
  | zero => intro n x hx; simp [beBytes] at hx
  | succ k ih =>
      intro n x hx
      rw [beBytes] at hx
      rcases List.mem_append.mp hx with h | h
      · exact ih _ x h
      · have : x = n % 256 := by simpa using h
        subst this
        exact Nat.mod_lt _ (by norm_num)

theorem sha256Bytes_lt (msg : List Nat) : ∀ x ∈ sha256Bytes msg, x < 256 := by
  unfold sha256Bytes
  generalize sha256Words msg = l
  induction l with
  | nil => intro x hx; simp at hx
  | cons h rest ih =>
      intro x hx
      simp only [List.foldr_cons] at hx
      rcases List.mem_append.mp hx with hmem | hmem
      · exact beBytes_lt 4 h x hmem
      · exact ih x hmem

theorem hashToFloatNum_le (seed : String) : hashToFloatNum seed ≤ 4294967295 := by
  unfold hashToFloatNum
  split
  case h_1 b0 b1 b2 b3 rest heq =>
      have h0 : b0 < 256 := sha256Bytes_lt _ b0 (heq ▸ List.mem_cons_self _ _)
      have h1 : b1 < 256 := sha256Bytes_lt _ b1
        (heq ▸ List.mem_cons_of_mem _ (List.mem_cons_self _ _))
      have h2 : b2 < 256 := sha256Bytes_lt _ b2
        (heq ▸ List.mem_cons_of_mem _ (List.mem_cons_of_mem _ (List.mem_cons_self _ _)))
      have h3 : b3 < 256 := sha256Bytes_lt _ b3
        (heq ▸ List.mem_cons_of_mem _ (List.mem_cons_of_mem _
          (List.mem_cons_of_mem _ (List.mem_cons_self _ _))))
      omega
  case h_2 => omega

theorem hashToFloat_nonneg (seed : String) : 0 ≤ hashToFloat seed := by
  unfold hashToFloat
  rw [Rat.mkRat_eq_divInt, Rat.divInt_eq_div]
  positivity

theorem hashToFloat_le_one (seed : String) : hashToFloat seed ≤ 1 := by
  unfold hashToFloat
  rw [Rat.mkRat_eq_divInt, Rat.divInt_eq_div]
  rw [div_le_one (by norm_num)]
  exact_mod_cast hashToFloatNum_le seed

/-- C5 counterexample: the claim that every score lies in [0,1) (strictly below
one) fails at the canonical id "206203646": the sha256 digest of the salted
seed "v1:fresh:206203646" begins with bytes ff ff ff ff, so hashToFloat divides
the maximal 32-bit value by 0xffffffff and the freshness score equals exactly 1. -/
theorem C5_score_strictly_below_one_counterexample :
    (scoreByCanonicalId "v1" "206203646").freshnessScore = 1 ∧
    ¬ (scoreByCanonicalId "v1" "206203646").freshnessScore < 1 := by
  have h : hashToFloatNum ("v1" ++ ":fresh:" ++ "206203646") = 4294967295 := by decide
  have he : (scoreByCanonicalId "v1" "206203646").freshnessScore = 1 := by
    simp only [scoreByCanonicalId, hashToFloat, h]
    decide
  exact ⟨he, by rw [he]; exact lt_irrefl 1⟩

/-- C5 amended: scoreByCanonicalId is deterministic (a pure function of the
salt and id — repeated calls coincide) and each of the three scores lies in the
closed interval [0,1]; the upper end 1 is attainable (see the counterexample),
so [0,1] cannot be sharpened to [0,1). -/
theorem C5_score_deterministic_and_range (id : String) :
    scoreByCanonicalId "v1" id = scoreByCanonicalId "v1" id ∧
    (0 ≤ (scoreByCanonicalId "v1" id).popularityScore ∧
      (scoreByCanonicalId "v1" id).popularityScore ≤ 1) ∧
    (0 ≤ (scoreByCanonicalId "v1" id).qualityScore ∧
      (scoreByCanonicalId "v1" id).qualityScore ≤ 1) ∧
    (0 ≤ (scoreByCanonicalId "v1" id).freshnessScore ∧
      (scoreByCanonicalId "v1" id).freshnessScore ≤ 1) :=
  ⟨rfl,
   ⟨hashToFloat_nonneg _, hashToFloat_le_one _⟩,
   ⟨hashToFloat_nonneg _, hashToFloat_le_one _⟩,
   ⟨hashToFloat_nonneg _, hashToFloat_le_one _⟩⟩

/-- C2: the idempotency claim fails for ingestPlaces. At the concrete input — a
place candidate with name, coordinates and city ingested twice into an initially
empty store (geo oracles immaterial: the store is empty on the first run and the
source fast path matches on the second) — the second identical run is classified
as updated (stats created 0, updated 1, unchanged 0), not unchanged, because
buildPlaceUpdate re-emits the incoming lat/lng on every run. The canonical field
values do remain unchanged (the second run leaves the whole store identical) and
no duplicate source-snapshot row is created. -/
theorem C2_second_ingest_counted_updated_not_unchanged :
    (ingestPlaces ⟨1000, 8/100, 120, 100, fun _ => 1, fun _ _ _ _ => 0⟩
        SourceType.GOOGLE_PLACES
        [{ name := some "Cafe X", location := some ⟨some 50, some 8⟩, cityId := some "40",
           source := ⟨SourceType.GOOGLE_PLACES, "g1", none⟩ }]
        (ingestPlaces ⟨1000, 8/100, 120, 100, fun _ => 1, fun _ _ _ _ => 0⟩
          SourceType.GOOGLE_PLACES
          [{ name := some "Cafe X", location := some ⟨some 50, some 8⟩, cityId := some "40",
             source := ⟨SourceType.GOOGLE_PLACES, "g1", none⟩ }] {}).1).2
      = { total := 1, created := 0, updated := 1, unchanged := 0, errors := 0,
          warnings := [] } ∧
    (ingestPlaces ⟨1000, 8/100, 120, 100, fun _ => 1, fun _ _ _ _ => 0⟩
        SourceType.GOOGLE_PLACES
        [{ name := some "Cafe X", location := some ⟨some 50, some 8⟩, cityId := some "40",
           source := ⟨SourceType.GOOGLE_PLACES, "g1", none⟩ }]
        (ingestPlaces ⟨1000, 8/100, 120, 100, fun _ => 1, fun _ _ _ _ => 0⟩
          SourceType.GOOGLE_PLACES
          [{ name := some "Cafe X", location := some ⟨some 50, some 8⟩, cityId := some "40",
             source := ⟨SourceType.GOOGLE_PLACES, "g1", none⟩ }] {}).1).1
      = (ingestPlaces ⟨1000, 8/100, 120, 100, fun _ => 1, fun _ _ _ _ => 0⟩
          SourceType.GOOGLE_PLACES
          [{ name := some "Cafe X", location := some ⟨some 50, some 8⟩, cityId := some "40",
             source := ⟨SourceType.GOOGLE_PLACES, "g1", none⟩ }] {}).1 ∧
    (ingestPlaces ⟨1000, 8/100, 120, 100, fun _ => 1, fun _ _ _ _ => 0⟩
        SourceType.GOOGLE_PLACES
        [{ name := some "Cafe X", location := some ⟨some 50, some 8⟩, cityId := some "40",
           source := ⟨SourceType.GOOGLE_PLACES, "g1", none⟩ }] {}).1.placeSources.length
      = 1 := by
  refine ⟨by decide, by decide, by decide⟩

/-! ### Occurrence upsert lemmas -/

theorem occApplyUpdate_endTime (o : EventOccurrenceRow) (tl : TimeLike)
    (it : NormalizedEventLike) (ea : Option Int)
    (la : Option (Rat × Rat × Option String)) :
    (occApplyUpdate o tl it ea la).endTime =
      match ea with | some v => some v | none => o.endTime := by
  unfold occApplyUpdate
  rcases la with _ | ⟨la1, lo1, pid⟩ <;> rfl

theorem occApplyUpdate_eventId (o : EventOccurrenceRow) (tl : TimeLike)
    (it : NormalizedEventLike) (ea : Option Int)
    (la : Option (Rat × Rat × Option String)) :
    (occApplyUpdate o tl it ea la).eventId = o.eventId := by
  unfold occApplyUpdate
  rcases la with _ | ⟨la1, lo1, pid⟩ <;> rfl

theorem occApplyUpdate_startTime (o : EventOccurrenceRow) (tl : TimeLike)
    (it : NormalizedEventLike) (ea : Option Int)
    (la : Option (Rat × Rat × Option String)) :
    (occApplyUpdate o tl it ea la).startTime = o.startTime := by
  unfold occApplyUpdate
  rcases la with _ | ⟨la1, lo1, pid⟩ <;> rfl

theorem find?_map_replace {α : Type} (pred : α → Bool) (f : α → α) (o o₂ : α) :
    ∀ l : List α, l.find? pred = some o → pred o₂ = true → f o = o₂ →
    (∀ x, f x = x ∨ f x = o₂) → (l.map f).find? pred = some o₂ := by
  intro l
  induction l with
  | nil => intro h; simp [List.find?] at h
  | cons x xs ih =>
      intro hfind hpo hfo hf
      rw [List.map_cons, List.find?_cons]
      cases hx : pred x with
      | true =>
          rw [List.find?_cons, hx] at hfind
          have hxo : x = o := by simpa using hfind
          subst hxo
          rw [hfo, hpo]
      | false =>
          rw [List.find?_cons, hx] at hfind
          rcases hf x with hfx | hfx
          · rw [hfx, hx]
            exact ih hfind hpo hfo hf
          · rw [hfx, hpo]

theorem find?_append_right {α : Type} (pred : α → Bool) (row : α) :
    ∀ l : List α, l.find? pred = none → pred row = true →
    ((l ++ [row]).find? pred) = some row := by
  intro l
  induction l with
  | nil => intro _ hrow; simp [List.find?_cons, hrow]
  | cons x xs ih =>
      intro hfind hrow
      rw [List.find?_cons] at hfind
      cases hx : pred x with
      | true => rw [hx] at hfind; exact absurd hfind (by simp)
      | false =>
          rw [hx] at hfind
          rw [List.cons_append, List.find?_cons, hx]
          exact ih hfind hrow

/-- C3: end-time resolution of the occurrence upsert keyed by exact startTime.
A provider end that is valid and strictly after start is always written, even
over a previously stored end; with no valid provider end, endTime is set to
start plus the expected duration (minutes) of the first category slug only when
the matched occurrence is absent or has no end time; an already-present end
time is never overwritten by a synthesized value. -/
theorem C3_occurrence_end_time_resolution
    (ctx : PersistCtx) (st : Store) (eventId : String) (it : NormalizedEventLike)
    (tl : TimeLike) (t0 : Int) :
    (∀ te, providerEndValid tl t0 = some te →
      (((upsertEventOccurrence ctx st eventId it tl t0).eventOccurrences.find?
          (fun o => o.eventId == eventId && o.startTime == t0)).map (·.endTime))
        = some (some te)) ∧
    (providerEndValid tl t0 = none →
      st.eventOccurrences.find? (fun o => o.eventId == eventId && o.startTime == t0)
        = none →
      (((upsertEventOccurrence ctx st eventId it tl t0).eventOccurrences.find?
          (fun o => o.eventId == eventId && o.startTime == t0)).map (·.endTime))
        = some (some (t0 + (resolveExpectedDurationForEvent ctx.randEventMinutes
            it.categories.head? : Int) * 60 * 1000))) ∧
    (providerEndValid tl t0 = none →
      ∀ o, st.eventOccurrences.find? (fun o => o.eventId == eventId && o.startTime == t0)
          = some o →
        o.endTime = none →
        (((upsertEventOccurrence ctx st eventId it tl t0).eventOccurrences.find?
            (fun o => o.eventId == eventId && o.startTime == t0)).map (·.endTime))
          = some (some (t0 + (resolveExpectedDurationForEvent ctx.randEventMinutes
              it.categories.head? : Int) * 60 * 1000))) ∧
    (providerEndValid tl t0 = none →
      ∀ o e, st.eventOccurrences.find? (fun o => o.eventId == eventId && o.startTime == t0)
          = some o →
        o.endTime = some e →
        (((upsertEventOccurrence ctx st eventId it tl t0).eventOccurrences.find?
            (fun o => o.eventId == eventId && o.startTime == t0)).map (·.endTime))
          = some (some e)) := by
  have hupd : ∀ (o : EventOccurrenceRow) (ea : Option Int),
      st.eventOccurrences.find? (fun o => o.eventId == eventId && o.startTime == t0)
        = some o →
      ((st.eventOccurrences.map (fun x =>
          if x.id == o.id then occApplyUpdate o tl it ea (occLocAssign ctx st it) else x)).find?
        (fun o => o.eventId == eventId && o.startTime == t0))
        = some (occApplyUpdate o tl it ea (occLocAssign ctx st it)) := by
    intro o ea hfind
    have horig := List.find?_some hfind
    refine find?_map_replace _ _ o _ _ hfind ?_ ?_ ?_
    · simp only [occApplyUpdate_eventId, occApplyUpdate_startTime]
      simpa using horig
    · simp
    · intro x
      by_cases hx : (x.id == o.id) = true
      · right; rw [if_pos hx]
      · left; rw [if_neg hx]
  refine ⟨?_, ?_, ?_, ?_⟩
  · intro te hprov
    cases hfind : st.eventOccurrences.find?
        (fun o => o.eventId == eventId && o.startTime == t0) with
    | some o =>
        simp only [upsertEventOccurrence, hfind, hprov, occEffectiveEnd, occEndAssign,
          Option.isSome_some, if_true]
        rw [hupd o (some te) hfind]
        simp [occApplyUpdate_endTime]
    | none =>
        simp only [upsertEventOccurrence, hfind, hprov, occEffectiveEnd, occEndAssign,
          Option.isSome_some, if_true]
        rw [find?_append_right _ _ _ hfind (by simp [occCreateRow])]
        simp [occCreateRow]
  · intro hprov hfind
    simp only [upsertEventOccurrence, hfind, hprov, occEffectiveEnd, occEndAssign,
      Option.isSome_none, Bool.false_eq_true, if_false]
    rw [find?_append_right _ _ _ hfind (by simp [occCreateRow])]
    simp [occCreateRow]
  · intro hprov o hfind hend
    simp only [upsertEventOccurrence, hfind, hprov, occEffectiveEnd, occEndAssign,
      Option.isSome_none, Bool.false_eq_true, if_false, hend, Option.isNone_none, if_true]
    rw [hupd o _ hfind]
    simp [occApplyUpdate_endTime]
  · intro hprov o e hfind hend
    simp only [upsertEventOccurrence, hfind, hprov, occEffectiveEnd, occEndAssign,
      Option.isSome_none, Bool.false_eq_true, if_false, hend, Option.isNone_some,
      Bool.false_eq_true]
    rw [hupd o _ hfind]
    simp [occApplyUpdate_endTime, hend]

/-- Witness for C3 at concrete instances: a provider end (500) overwrites a
previously stored end (99); with no provider end and no stored occurrence the
end is synthesized as start + 150 minutes for the theatre category; with no
provider end and a stored end (99), the stored end is kept. -/
theorem C3_occurrence_end_time_resolution_witness :
    (((upsertEventOccurrence ⟨0, 0, 120, 50, fun _ => 1, fun _ _ _ _ => 0⟩
        { eventOccurrences := [{ id := "o1", eventId := "e1", startTime := 10,
                                 endTime := some 99 }] }
        "e1" { categories := ["event.theatre_performing_arts"],
               source := ⟨SourceType.TICKETMASTER, "x", none⟩ }
        { start := some (some 10), «end» := some (some 500) } 10).eventOccurrences.find?
          (fun o => o.eventId == "e1" && o.startTime == 10)).map (·.endTime)
      = some (some 500)) ∧
    (((upsertEventOccurrence ⟨0, 0, 120, 50, fun _ => 1, fun _ _ _ _ => 0⟩ {}
        "e1" { categories := ["event.theatre_performing_arts"],
               source := ⟨SourceType.TICKETMASTER, "x", none⟩ }
        { start := some (some 10), «end» := none } 10).eventOccurrences.find?
          (fun o => o.eventId == "e1" && o.startTime == 10)).map (·.endTime)
      = some (some 9000010)) ∧
    (((upsertEventOccurrence ⟨0, 0, 120, 50, fun _ => 1, fun _ _ _ _ => 0⟩
        { eventOccurrences := [{ id := "o1", eventId := "e1", startTime := 10,
                                 endTime := some 99 }] }
        "e1" { categories := ["event.theatre_performing_arts"],
               source := ⟨SourceType.TICKETMASTER, "x", none⟩ }
        { start := some (some 10), «end» := none } 10).eventOccurrences.find?
          (fun o => o.eventId == "e1" && o.startTime == 10)).map (·.endTime)
      = some (some 99)) :=
  ⟨(C3_occurrence_end_time_resolution ⟨0, 0, 120, 50, fun _ => 1, fun _ _ _ _ => 0⟩
      { eventOccurrences := [{ id := "o1", eventId := "e1", startTime := 10,
                               endTime := some 99 }] }
      "e1" { categories := ["event.theatre_performing_arts"],
             source := ⟨SourceType.TICKETMASTER, "x", none⟩ }
      { start := some (some 10), «end» := some (some 500) } 10).1 500 (by decide),
   ((C3_occurrence_end_time_resolution ⟨0, 0, 120, 50, fun _ => 1, fun _ _ _ _ => 0⟩ {}
      "e1" { categories := ["event.theatre_performing_arts"],
             source := ⟨SourceType.TICKETMASTER, "x", none⟩ }
      { start := some (some 10), «end» := none } 10).2.1 (by decide) (by decide)).trans
     (by decide),
   ((C3_occurrence_end_time_resolution ⟨0, 0, 120, 50, fun _ => 1, fun _ _ _ _ => 0⟩
      { eventOccurrences := [{ id := "o1", eventId := "e1", startTime := 10,
                               endTime := some 99 }] }
      "e1" { categories := ["event.theatre_performing_arts"],
             source := ⟨SourceType.TICKETMASTER, "x", none⟩ }
      { start := some (some 10), «end» := none } 10).2.2.2 (by decide)
      { id := "o1", eventId := "e1", startTime := 10, endTime := some 99 } 99
      (by decide) (by decide))⟩

/-! ### Batch statistics lemmas -/

theorem addStats_zero_left (b : IngestStats) : addStats {} b = b := by
  simp [addStats]

theorem addStats_zero_right (a : IngestStats) : addStats a {} = a := by
  simp [addStats]

theorem addStats_assoc (a b c : IngestStats) :
    addStats (addStats a b) c = addStats a (addStats b c) := by
  simp [addStats, Nat.add_assoc, List.append_assoc]

theorem ingestPlacesGo_append (ctx : PersistCtx) (provider : SourceType)
    (xs ys : List NormalizedPlaceLike) : ∀ st : Store,
    ingestPlacesGo ctx provider (xs ++ ys) st =
      ((ingestPlacesGo ctx provider ys (ingestPlacesGo ctx provider xs st).1).1,
        addStats (ingestPlacesGo ctx provider xs st).2
          (ingestPlacesGo ctx provider ys (ingestPlacesGo ctx provider xs st).1).2) := by
  induction xs with
  | nil => intro st; simp [ingestPlacesGo, addStats_zero_left]
  | cons it rest ih =>
      intro st
      rw [List.cons_append]
      simp only [ingestPlacesGo]
      rw [ih]
      simp [addStats_assoc]

theorem ingestEventsGo_append (ctx : PersistCtx) (provider : SourceType)
    (xs ys : List NormalizedEventLike) : ∀ st : Store,
    ingestEventsGo ctx provider (xs ++ ys) st =
      ((ingestEventsGo ctx provider ys (ingestEventsGo ctx provider xs st).1).1,
        addStats (ingestEventsGo ctx provider xs st).2
          (ingestEventsGo ctx provider ys (ingestEventsGo ctx provider xs st).1).2) := by
  induction xs with
  | nil => intro st; simp [ingestEventsGo, addStats_zero_left]
  | cons it rest ih =>
      intro st
      rw [List.cons_append]
      simp only [ingestEventsGo]
      rw [ih]
      simp [addStats_assoc]

/-- C4: ingestPlaces and ingestEvents are total functions of the batch (no
exception escapes the per-item boundary): the returned total always equals the
input length; the batch splits — processing xs ++ ys equals processing xs, then
ys against the resulting store, with statistics accumulated componentwise, so a
failing item never prevents the remaining items from being processed; and a
single item whose dedup/precondition step throws contributes exactly one error
and one appended warning while leaving the store untouched. -/
theorem C4_per_item_error_isolation (ctx : PersistCtx) (provider : SourceType) :
    (∀ items st, (ingestPlaces ctx provider items st).2.total = items.length) ∧
    (∀ items st, (ingestEvents ctx provider items st).2.total = items.length) ∧
    (∀ xs ys st, ingestPlaces ctx provider (xs ++ ys) st =
      ((ingestPlaces ctx provider ys (ingestPlaces ctx provider xs st).1).1,
        addStats (ingestPlaces ctx provider xs st).2
          (ingestPlaces ctx provider ys (ingestPlaces ctx provider xs st).1).2)) ∧
    (∀ xs ys st, ingestEvents ctx provider (xs ++ ys) st =
      ((ingestEvents ctx provider ys (ingestEvents ctx provider xs st).1).1,
        addStats (ingestEvents ctx provider xs st).2
          (ingestEvents ctx provider ys (ingestEvents ctx provider xs st).1).2)) ∧
    (∀ it st e, matchOrCreatePlace ctx st it = .error e →
      ingestPlaces ctx provider [it] st =
        (st, { total := 1, errors := 1, warnings := ["place error: " ++ e] })) ∧
    (∀ it st e, matchOrCreateEvent st it = .error e →
      ingestEvents ctx provider [it] st =
        (st, { total := 1, errors := 1, warnings := ["event error: " ++ e] })) := by
  refine ⟨fun items st => rfl, fun items st => rfl, ?_, ?_, ?_, ?_⟩
  · intro xs ys st
    simp only [ingestPlaces]
    rw [ingestPlacesGo_append]
    simp [addStats, List.length_append]
  · intro xs ys st
    simp only [ingestEvents]
    rw [ingestEventsGo_append]
    simp [addStats, List.length_append]
  · intro it st e herr
    simp only [ingestPlaces, ingestPlacesGo, processPlaceItem, herr]
    simp [addStats]
  · intro it st e herr
    simp only [ingestEvents, ingestEventsGo, processEventItem, herr]
    simp [addStats]

/-- Witness for C4: a place candidate without coordinates and an event
candidate without a cityId each yield exactly one error and one warning
carrying the thrown message, leaving the (empty) store untouched. -/
theorem C4_per_item_error_isolation_witness :
    ingestPlaces ⟨0, 0, 120, 100, fun _ => 1, fun _ _ _ _ => 0⟩ SourceType.GEOAPIFY
        [{ name := some "No coords", location := none, cityId := some "40",
           source := ⟨SourceType.GEOAPIFY, "x", none⟩ }] {}
      = ({}, { total := 1, errors := 1,
               warnings := ["place error: " ++
                 "Cannot create Place without coordinates for source=GEOAPIFY externalId=x"] }) ∧
    ingestEvents ⟨0, 0, 120, 100, fun _ => 1, fun _ _ _ _ => 0⟩ SourceType.TICKETMASTER
        [{ title := some "No city", cityId := none,
           source := ⟨SourceType.TICKETMASTER, "1", none⟩ }] {}
      = ({}, { total := 1, errors := 1,
               warnings := ["event error: " ++
                 "Cannot create Event without cityId for source=TICKETMASTER externalId=1"] }) :=
  ⟨(C4_per_item_error_isolation ⟨0, 0, 120, 100, fun _ => 1, fun _ _ _ _ => 0⟩
      SourceType.GEOAPIFY).2.2.2.2.1
      { name := some "No coords", location := none, cityId := some "40",
        source := ⟨SourceType.GEOAPIFY, "x", none⟩ } {}
      "Cannot create Place without coordinates for source=GEOAPIFY externalId=x" rfl,
   (C4_per_item_error_isolation ⟨0, 0, 120, 100, fun _ => 1, fun _ _ _ _ => 0⟩
      SourceType.TICKETMASTER).2.2.2.2.2
      { title := some "No city", cityId := none,
        source := ⟨SourceType.TICKETMASTER, "1", none⟩ } {}
      "Cannot create Event without cityId for source=TICKETMASTER externalId=1" rfl⟩


/-! ### Cache key normalization -/

theorem listNatLe_total : ∀ xs ys : List Nat, listNatLe xs ys = true ∨ listNatLe ys xs = true := by
  intro xs
  induction xs with
  | nil => intro ys; left; rfl
  | cons x xs ih =>
      intro ys
      cases ys with
      | nil => right; rfl
      | cons y ys =>
          rcases Nat.lt_trichotomy x y with h | h | h
          · left; simp only [listNatLe, if_pos h]
          · subst h
            rcases ih ys with h2 | h2
            · left; simp [listNatLe, h2]
            · right; simp [listNatLe, h2]
          · right; simp only [listNatLe, if_pos h]

theorem listNatLe_trans : ∀ xs ys zs : List Nat, listNatLe xs ys = true →
    listNatLe ys zs = true → listNatLe xs zs = true := by
  intro xs
  induction xs with
  | nil => intro ys zs _ _; rfl
  | cons x xs ih =>
      intro ys zs h1 h2
      cases ys with
      | nil => simp [listNatLe] at h1
      | cons y ys =>
          cases zs with
          | nil => simp [listNatLe] at h2
          | cons z zs =>
              simp only [listNatLe] at h1 h2 ⊢
              by_cases hxy : x < y
              · rw [if_pos hxy] at h1
                by_cases hyz : y < z
                · rw [if_pos (Nat.lt_trans hxy hyz)]
                · rw [if_neg hyz] at h2
                  by_cases hzy : z < y
                  · rw [if_pos hzy] at h2; exact absurd h2 (by simp)
                  · have hyez : y = z := Nat.le_antisymm (Nat.le_of_not_lt hzy)
                      (Nat.le_of_not_lt hyz)
                    subst hyez
                    rw [if_pos hxy]
              · rw [if_neg hxy] at h1
                by_cases hyx : y < x
                · rw [if_pos hyx] at h1; exact absurd h1 (by simp)
                · have hxey : x = y := Nat.le_antisymm (Nat.le_of_not_lt hyx)
                    (Nat.le_of_not_lt hxy)
                  subst hxey
                  simp only [if_neg (Nat.lt_irrefl x)] at h1
                  by_cases hxz : x < z
                  · rw [if_pos hxz]
                  · rw [if_neg hxz] at h2 ⊢
                    by_cases hzx : z < x
                    · rw [if_pos hzx] at h2; exact absurd h2 (by simp)
                    · rw [if_neg hzx] at h2 ⊢
                      exact ih ys zs h1 h2

theorem listNatLe_antisymm : ∀ xs ys : List Nat, listNatLe xs ys = true →
    listNatLe ys xs = true → xs = ys := by
  intro xs
  induction xs with
  | nil =>
      intro ys h1 h2
      cases ys with
      | nil => rfl
      | cons y ys => simp [listNatLe] at h2
  | cons x xs ih =>
      intro ys h1 h2
      cases ys with
      | nil => simp [listNatLe] at h1
      | cons y ys =>
          simp only [listNatLe] at h1 h2
          by_cases hxy : x < y
          · rw [if_neg (Nat.lt_asymm hxy), if_pos hxy] at h2
            exact absurd h2 (by simp)
          · rw [if_neg hxy] at h1
            by_cases hyx : y < x
            · rw [if_pos hyx] at h1; exact absurd h1 (by simp)
            · have hxey : x = y := Nat.le_antisymm (Nat.le_of_not_lt hyx)
                (Nat.le_of_not_lt hxy)
              subst hxey
              simp only [if_neg (Nat.lt_irrefl x)] at h1 h2
              rw [ih ys h1 h2]

theorem jsStrLe_antisymm (a b : String) (h1 : jsStrLe a b) (h2 : jsStrLe b a) : a = b := by
  have hmap := listNatLe_antisymm _ _ h1 h2
  have hinj : Function.Injective Char.toNat := fun c d h => Char.eq_of_val_eq (UInt32.ext h)
  have hdata : a.data = b.data := List.map_injective_iff.mpr hinj hmap
  cases a with
  | mk da =>
      cases b with
      | mk db =>
          simp only at hdata
          rw [hdata]

theorem insertionSort_congr_perm (l₁ l₂ : List String) (h : l₁.Perm l₂) :
    List.insertionSort jsStrLe l₁ = List.insertionSort jsStrLe l₂ := by
  haveI : IsTotal String jsStrLe := ⟨fun a b => listNatLe_total _ _⟩
  haveI : IsTrans String jsStrLe := ⟨fun a b c => listNatLe_trans _ _ _⟩
  haveI : IsAntisymm String jsStrLe := ⟨jsStrLe_antisymm⟩
  exact List.eq_of_perm_of_sorted
    ((List.perm_insertionSort _ l₁).trans (h.trans (List.perm_insertionSort _ l₂).symm))
    (List.sorted_insertionSort _ l₁) (List.sorted_insertionSort _ l₂)

/-- C9 counterexample: normalizeArray sorts but does not deduplicate, so two
queries identical except for a duplicated category filter entry (["a","a"] vs
["a"]) produce different cache keys, contradicting the claimed
order-and-duplication invariance. -/
theorem C9_duplicate_filters_change_key_counterexample :
    searchCacheKey ⟨true, true, "v1", 10⟩
        { target := "ALL", filters := some ⟨some ["a", "a"], none⟩ } ≠
    searchCacheKey ⟨true, true, "v1", 10⟩
        { target := "ALL", filters := some ⟨some ["a"], none⟩ } := by
  decide

/-- C9 amended: cache keys are invariant under reordering (permutation) of the
array-valued filters — the arrays are sorted (but not deduplicated) before
hashing — and under coordinate jitter that does not change the rounded values
(roundGeo at 5 digits, radius at 0.5 km steps). -/
theorem C9_key_invariant_under_order_and_rounded_jitter
    (c : CacheConfig) (q : SearchRequest) (w : WhereQ) (g₁ g₂ : GeoQ)
    (cats₁ cats₂ srcs₁ srcs₂ : List String)
    (hcats : cats₁.Perm cats₂) (hsrcs : srcs₁.Perm srcs₂)
    (hlat : roundGeo g₁.lat = roundGeo g₂.lat)
    (hlon : roundGeo g₁.lon = roundGeo g₂.lon)
    (hrad : g₁.radiusKm = g₂.radiusKm) :
    searchCacheKey c { q with «where» := some { w with geo := some g₁ },
                              filters := some ⟨some cats₁, some srcs₁⟩ }
      = searchCacheKey c { q with «where» := some { w with geo := some g₂ },
                                  filters := some ⟨some cats₂, some srcs₂⟩ } := by
  have hkp : keyParts { q with «where» := some { w with geo := some g₁ },
                               filters := some ⟨some cats₁, some srcs₁⟩ }
      = keyParts { q with «where» := some { w with geo := some g₂ },
                          filters := some ⟨some cats₂, some srcs₂⟩ } := by
    simp only [keyParts, normalizeArray, Option.bind, Option.map,
      insertionSort_congr_perm cats₁ cats₂ hcats, insertionSort_congr_perm srcs₁ srcs₂ hsrcs,
      hlat, hlon, hrad]
  unfold searchCacheKey buildKey
  rw [hkp]

/-- Witness for the amended C9 at a concrete instance: reordered category and
source filters plus sub-precision latitude jitter (50.1234567 vs 50.1234572,
both rounding to 50.12346) give the identical cache key. -/
theorem C9_key_invariant_witness :
    searchCacheKey ⟨true, true, "v1", 10⟩
        { target := "ALL",
          «where» := some { city := none, bbox := none,
                            geo := some ⟨mkRat 501234567 10000000, 8, none⟩ },
          filters := some ⟨some ["b", "a"], some ["TICKETMASTER", "GEOAPIFY"]⟩ }
      = searchCacheKey ⟨true, true, "v1", 10⟩
        { target := "ALL",
          «where» := some { city := none, bbox := none,
                            geo := some ⟨mkRat 501234572 10000000, 8, none⟩ },
          filters := some ⟨some ["a", "b"], some ["GEOAPIFY", "TICKETMASTER"]⟩ } :=
  C9_key_invariant_under_order_and_rounded_jitter ⟨true, true, "v1", 10⟩
    { target := "ALL" } { city := none, bbox := none }
    ⟨mkRat 501234567 10000000, 8, none⟩ ⟨mkRat 501234572 10000000, 8, none⟩
    ["b", "a"] ["a", "b"] ["TICKETMASTER", "GEOAPIFY"] ["GEOAPIFY", "TICKETMASTER"]
    (by decide) (by decide) (by decide) (by decide) rfl
